import Mathlib

/-!
# Verification of the q2gloombot navigation / AI core

Shallow embedding of the bot subsystem of q2gloombot:

* `src/bot/nav/bot_nodes.c`  — navigation node graph store + binary persistence
* `src/bot/nav/bot_nav.c`    — A* pathfinding and path following
* `src/bot/bot_personality.c`— deterministic per-name personality generation
* `src/bot/bot_main.c`       — per-agent finite state machine
* `src/bot/team/bot_teamwork.c` — cross-agent cooperation (enemy memory
  sharing, help requests)

C machine integers are modelled as `Int`/`Nat` (with explicit `% 2^32`
where 32-bit wraparound matters); C `float` scalars are modelled as `ℚ`
(binary file I/O of a float is a bit-for-bit copy, hence value-preserving,
and none of the verified properties depends on rounding); C arrays are
modelled as total functions `Nat → _` or as fixed-length lists, matching
the source's fixed-capacity arrays.  Transcendental float operations
(`sqrt`, `log`, `cos` used by Box–Muller, `VectorLength`) are taken as
explicit function parameters, since no verified property depends on their
values.
-/

namespace Gloombot

/-- 3-D world position (C `vec3_t`), components as exact rationals. -/
structure Vec3 where
  x : ℚ
  y : ℚ
  z : ℚ
deriving DecidableEq, Repr

/-- Componentwise vector subtraction (C `VectorSubtract`). -/
def vsub (a b : Vec3) : Vec3 := ⟨a.x - b.x, a.y - b.y, a.z - b.z⟩

/-- Dot product (C `DotProduct`). -/
def vdot (a b : Vec3) : ℚ := a.x * b.x + a.y * b.y + a.z * b.z

/-! ## Constants from `bot.h` / `bot_nodes.h` -/

/-- `MAX_NAV_NODES` -/
def MAX_NAV_NODES : Nat := 1024

/-- `MAX_NODE_NEIGHBORS` -/
def MAX_NODE_NEIGHBORS : Nat := 8

/-- `BOT_INVALID_NODE` -/
def BOT_INVALID_NODE : Int := -1

/-- `BOT_MAX_PATH_NODES` -/
def BOT_MAX_PATH_NODES : Nat := 256

/-- `BOT_MAX_REMEMBERED_ENEMIES` -/
def BOT_MAX_REMEMBERED_ENEMIES : Nat := 8

/-- `NAV_GROUND` flag bit -/
def NAV_GROUND : Nat := 0x0001

/-- `NAV_TEAM_ALL` -/
def NAV_TEAM_ALL : Nat := 0x03

/-- `NAV_MOVE_WALK` -/
def NAV_MOVE_WALK : Int := 0
/-- `NAV_MOVE_JUMP` -/
def NAV_MOVE_JUMP : Int := 1
/-- `NAV_MOVE_CLIMB` -/
def NAV_MOVE_CLIMB : Int := 2
/-- `NAV_MOVE_FLY` -/
def NAV_MOVE_FLY : Int := 3
/-- `NAV_MOVE_SWIM` -/
def NAV_MOVE_SWIM : Int := 4
/-- `NAV_MOVE_LADDER` -/
def NAV_MOVE_LADDER : Int := 5

/-- Model of C `FLT_MAX` as a rational upper sentinel (any bound larger
than every finite distance occurring in play serves; only its role as the
initial "infinity" of scans matters, never its exact value). -/
def FLT_MAX_Q : ℚ := 2 ^ 128

/-! ## Navigation node data model (`nav_node_t`)

The C struct keeps three parallel arrays `neighbors[8]`,
`neighbor_costs[8]`, `movement_required[8]`; we fuse each index `j` of
the three arrays into one `NbrEntry`.  A well-formed node carries exactly
`MAX_NODE_NEIGHBORS` entries (the fixed array), of which the first
`num_neighbors` are active. -/

structure NbrEntry where
  target : Int
  cost   : ℚ
  move   : Int
deriving DecidableEq, Repr

/-- Sentinel entry written into vacated neighbor slots
(`BOT_INVALID_NODE`, `0.0f`, `NAV_MOVE_WALK`). -/
def sentinelNbr : NbrEntry := ⟨BOT_INVALID_NODE, 0, NAV_MOVE_WALK⟩

/-- C `nav_node_t`. -/
structure NavNode where
  id            : Int
  origin        : Vec3
  flags         : Nat
  team_access   : Nat
  num_neighbors : Int
  nbrs          : List NbrEntry
deriving DecidableEq, Repr

/-- A node slot is valid (occupied) when its id is not the tombstone. -/
def NavNode.valid (n : NavNode) : Prop := n.id ≠ BOT_INVALID_NODE

instance (n : NavNode) : Decidable n.valid := by
  unfold NavNode.valid; infer_instance

/-- Well-formed node: the modelled neighbor lists have the fixed array
length and `num_neighbors` is in range (the C code maintains
`0 <= num_neighbors <= MAX_NODE_NEIGHBORS`). -/
def NavNode.wf (n : NavNode) : Prop :=
  n.nbrs.length = MAX_NODE_NEIGHBORS ∧
  0 ≤ n.num_neighbors ∧ n.num_neighbors ≤ (MAX_NODE_NEIGHBORS : Int)

instance (n : NavNode) : Decidable n.wf := by
  unfold NavNode.wf; infer_instance

/-- C global graph state: `nav_nodes[MAX_NAV_NODES]` (as a total function
on slot indices) together with `nav_node_count` (highest used slot + 1). -/
structure NavGraph where
  nodes : Nat → NavNode
  count : Int

/-- Well-formed graph: count in range, every slot well-formed, every
valid slot lies below `count` and stores its own index as id (both are
maintained by `Node_Add`, `Node_Remove`, `Node_Clear`, `Node_Load`). -/
def NavGraph.wf (g : NavGraph) : Prop :=
  0 ≤ g.count ∧ g.count ≤ (MAX_NAV_NODES : Int) ∧
  (∀ i, (g.nodes i).wf) ∧
  (∀ i, (g.nodes i).valid → (i : Int) < g.count ∧ (g.nodes i).id = (i : Int))

/-! ## `Node_Clear` (`bot_nodes.c:32`)

Resets `id` and `num_neighbors` of every slot and zeroes the count; the
other fields retain their previous contents, exactly as in the source. -/

def Node_Clear (g : NavGraph) : NavGraph :=
  { nodes := fun i => { g.nodes i with id := BOT_INVALID_NODE, num_neighbors := 0 }
    count := 0 }

/-! ## `Node_Add` (`bot_nodes.c:47`) -/

/-- The free-slot scan `for (i = 0; i < MAX_NAV_NODES; i++)`, searching
from index `i` with `fuel` slots left to examine. -/
def findFreeSlot (nodes : Nat → NavNode) : Nat → Nat → Option Nat
  | _, 0 => none
  | i, fuel + 1 =>
    if (nodes i).id = BOT_INVALID_NODE then some i
    else findFreeSlot nodes (i + 1) fuel

/-- `Node_Add`: returns the new node's id (or `BOT_INVALID_NODE` when
the graph is full) together with the updated graph. -/
def Node_Add (g : NavGraph) (origin : Vec3) (flags : Nat) : Int × NavGraph :=
  match findFreeSlot g.nodes 0 MAX_NAV_NODES with
  | none => (BOT_INVALID_NODE, g)
  | some i =>
    let fresh : NavNode :=
      { id := (i : Int), origin := origin, flags := flags
        team_access := NAV_TEAM_ALL, num_neighbors := 0
        nbrs := List.replicate MAX_NODE_NEIGHBORS sentinelNbr }
    ((i : Int),
     { nodes := Function.update g.nodes i fresh
       count := if (i : Int) ≥ g.count then (i : Int) + 1 else g.count })

/-! ## `Node_Remove` (`bot_nodes.c:90`) -/

/-- Shift the active entries left over the erased index `j` and sentinel
the vacated slot: the C inner loop
`for (k = j; k < num-1; k++) arr[k] = arr[k+1]; num--; arr[num] = sentinel;`
acting on the fixed-length array.  Entries at positions `≥ num` are
untouched. -/
def shiftRemove (nbrs : List NbrEntry) (num j : Nat) : List NbrEntry :=
  ((nbrs.take num).eraseIdx j ++ [sentinelNbr]) ++ nbrs.drop num

/-- The scrub scan `for (j = 0; j < num_neighbors; j++)` with the
`j--` restart after each removal: removes every active entry whose
target equals `id`.  Returns the updated array and the new count.
The loop's termination measure `num - j` strictly decreases each
iteration, so running it with `fuel ≥ num - j` steps is exact. -/
def scrubLoop (id : Int) : Nat → List NbrEntry → Nat → Nat → List NbrEntry × Nat
  | 0, nbrs, num, _ => (nbrs, num)
  | fuel + 1, nbrs, num, j =>
    if j < num then
      if (nbrs.getD j sentinelNbr).target = id then
        scrubLoop id fuel (shiftRemove nbrs num j) (num - 1) j
      else
        scrubLoop id fuel nbrs num (j + 1)
    else
      (nbrs, num)

/-- Scrub all references to `id` from one node's neighbor list
(`num_neighbors` steps of fuel always suffice for the whole scan). -/
def scrubNode (id : Int) (n : NavNode) : NavNode :=
  let p := scrubLoop id n.num_neighbors.toNat n.nbrs n.num_neighbors.toNat 0
  { n with nbrs := p.1, num_neighbors := (p.2 : Int) }

/-- `Node_Remove`: guards, scrub pass over all valid slots below the
count, then tombstone the slot. -/
def Node_Remove (g : NavGraph) (id : Int) : NavGraph :=
  if id < 0 ∨ id ≥ g.count then g
  else if (g.nodes id.toNat).id = BOT_INVALID_NODE then g
  else
    let scrubbed : Nat → NavNode := fun i =>
      if (i : Int) < g.count ∧ (g.nodes i).valid then scrubNode id (g.nodes i)
      else g.nodes i
    { nodes := Function.update scrubbed id.toNat
        { scrubbed id.toNat with id := BOT_INVALID_NODE, num_neighbors := 0 }
      count := g.count }

/-! ## `Node_FindNearest` (`bot_nodes.c:138`) -/

/-- The linear scan body, iterating slots `0 .. count-1` carrying
`(best_id, best_dist)`. -/
def findNearestLoop (g : NavGraph) (origin : Vec3) (required_flags : Nat) :
    Nat → Int × ℚ → Int × ℚ
  | 0, best => best
  | i + 1, best =>
    let best' := findNearestLoop g origin required_flags i best
    let n := g.nodes i
    if n.id = BOT_INVALID_NODE then best'
    else if required_flags ≠ 0 ∧ n.flags &&& required_flags ≠ required_flags then
      best'
    else
      let delta := vsub origin n.origin
      let dist_sq := vdot delta delta
      if dist_sq < best'.2 then (n.id, dist_sq) else best'

/-- `Node_FindNearest` (with `max_range` as in the source: `0` means
unlimited, modelled by the `FLT_MAX` sentinel). -/
def Node_FindNearest (g : NavGraph) (origin : Vec3) (required_flags : Nat)
    (max_range : ℚ) : Int :=
  let init : Int × ℚ :=
    (BOT_INVALID_NODE, if max_range > 0 then max_range * max_range else FLT_MAX_Q)
  (findNearestLoop g origin required_flags g.count.toNat init).1

/-! ## `Node_Connect` (`bot_nodes.c:180`, `bot_nodes.c:213`) -/

/-- The duplicate-link scan in `Node_AddLink`:
`for (j = 0; j < num_neighbors; j++) if (neighbors[j] == to_id) ...`,
checking the first `j` active entries. -/
def linkExists (nbrs : List NbrEntry) (to_id : Int) : Nat → Bool
  | 0 => false
  | j + 1 => linkExists nbrs to_id j || decide ((nbrs.getD j sentinelNbr).target = to_id)

/-- `Node_AddLink`: one-way link; fails if the neighbor list is full,
no-ops (successfully) when the link already exists. -/
def Node_AddLink (n : NavNode) (to_id : Int) (cost : ℚ) (move_type : Int) :
    Bool × NavNode :=
  if n.num_neighbors ≥ (MAX_NODE_NEIGHBORS : Int) then (false, n)
  else if linkExists n.nbrs to_id n.num_neighbors.toNat then (true, n)
  else
    (true,
     { n with nbrs := n.nbrs.set n.num_neighbors.toNat ⟨to_id, cost, move_type⟩
              num_neighbors := n.num_neighbors + 1 })

/-- `Node_Connect`: bidirectional link with validity and self-loop guards. -/
def Node_Connect (g : NavGraph) (id1 id2 : Int) (cost : ℚ) (move_type : Int) :
    NavGraph :=
  if id1 < 0 ∨ id1 ≥ g.count ∨ (g.nodes id1.toNat).id = BOT_INVALID_NODE then g
  else if id2 < 0 ∨ id2 ≥ g.count ∨ (g.nodes id2.toNat).id = BOT_INVALID_NODE then g
  else if id1 = id2 then g
  else
    let g1 := { g with
      nodes := Function.update g.nodes id1.toNat
        (Node_AddLink (g.nodes id1.toNat) id2 cost move_type).2 }
    { g1 with
      nodes := Function.update g1.nodes id2.toNat
        (Node_AddLink (g1.nodes id2.toNat) id1 cost move_type).2 }

/-! ## Claim C4: `Node_Remove` scrubs all inbound edges and tombstones -/

lemma length_shiftRemove (nbrs : List NbrEntry) (num j : Nat)
    (hj : j < num) (hn : num ≤ nbrs.length) :
    (shiftRemove nbrs num j).length = nbrs.length := by
  unfold shiftRemove
  have ht : (nbrs.take num).length = num := List.length_take_of_le hn
  have he : ((nbrs.take num).eraseIdx j).length = (nbrs.take num).length - 1 :=
    List.length_eraseIdx_of_lt (by rw [ht]; exact hj)
  simp only [List.length_append, List.length_singleton, he, ht, List.length_drop]
  omega

lemma getD_shiftRemove_lt (nbrs : List NbrEntry) (num j k : Nat)
    (hk : k < j) (hj : j < num) (hn : num ≤ nbrs.length) :
    (shiftRemove nbrs num j).getD k sentinelNbr = nbrs.getD k sentinelNbr := by
  unfold shiftRemove
  have ht : (nbrs.take num).length = num := List.length_take_of_le hn
  have he : ((nbrs.take num).eraseIdx j).length = num - 1 := by
    rw [List.length_eraseIdx_of_lt (by rw [ht]; exact hj), ht]
  have hk1 : k < ((nbrs.take num).eraseIdx j).length := by omega
  have hk2 : k < (((nbrs.take num).eraseIdx j) ++ [sentinelNbr]).length := by
    simp only [List.length_append, List.length_singleton]; omega
  rw [List.getD_eq_getElem?_getD, List.getD_eq_getElem?_getD,
      List.getElem?_append_left hk2, List.getElem?_append_left hk1,
      List.getElem?_eraseIdx_of_lt _ _ _ hk,
      List.getElem?_take_of_lt (hk.trans hj)]

lemma scrubLoop_zero (id : Int) (nbrs : List NbrEntry) (num j : Nat) :
    scrubLoop id 0 nbrs num j = (nbrs, num) := rfl

lemma scrubLoop_succ_stop (id : Int) (fuel : Nat) (nbrs : List NbrEntry)
    (num j : Nat) (h : ¬ j < num) :
    scrubLoop id (fuel + 1) nbrs num j = (nbrs, num) := by
  simp [scrubLoop, h]

lemma scrubLoop_succ_hit (id : Int) (fuel : Nat) (nbrs : List NbrEntry)
    (num j : Nat) (h : j < num) (hh : (nbrs.getD j sentinelNbr).target = id) :
    scrubLoop id (fuel + 1) nbrs num j =
      scrubLoop id fuel (shiftRemove nbrs num j) (num - 1) j := by
  simp only [scrubLoop]
  rw [if_pos h, if_pos hh]

lemma scrubLoop_succ_skip (id : Int) (fuel : Nat) (nbrs : List NbrEntry)
    (num j : Nat) (h : j < num) (hh : ¬ (nbrs.getD j sentinelNbr).target = id) :
    scrubLoop id (fuel + 1) nbrs num j = scrubLoop id fuel nbrs num (j + 1) := by
  simp only [scrubLoop]
  rw [if_pos h, if_neg hh]

/-- The scrub loop leaves no active entry targeting `id`, never grows the
count, and preserves the array length. -/
lemma scrubLoop_clean (id : Int) :
    ∀ fuel nbrs num j, num ≤ nbrs.length → num - j ≤ fuel →
    (∀ k, k < j → (nbrs.getD k sentinelNbr).target ≠ id) →
    (scrubLoop id fuel nbrs num j).2 ≤ num ∧
    (scrubLoop id fuel nbrs num j).1.length = nbrs.length ∧
    (∀ k, k < (scrubLoop id fuel nbrs num j).2 →
        ((scrubLoop id fuel nbrs num j).1.getD k sentinelNbr).target ≠ id) := by
  intro fuel
  induction fuel with
  | zero =>
    intro nbrs num j hn hfuel hpre
    rw [scrubLoop_zero]
    exact ⟨le_refl _, rfl, fun k hk => hpre k (by omega)⟩
  | succ fuel ih =>
    intro nbrs num j hn hfuel hpre
    by_cases hj : j < num
    · by_cases hhit : (nbrs.getD j sentinelNbr).target = id
      · have hlen := length_shiftRemove nbrs num j hj hn
        have hrec := ih (shiftRemove nbrs num j) (num - 1) j
          (by rw [hlen]; omega) (by omega)
          (fun k hk => by
            rw [getD_shiftRemove_lt nbrs num j k hk hj hn]
            exact hpre k hk)
        rw [scrubLoop_succ_hit id fuel nbrs num j hj hhit]
        exact ⟨by omega, by rw [hrec.2.1, hlen], hrec.2.2⟩
      · have hrec := ih nbrs num (j + 1) hn (by omega)
          (fun k hk => by
            rcases Nat.lt_or_ge k j with h | h
            · exact hpre k h
            · have hkj : k = j := by omega
              subst hkj; exact hhit)
        rw [scrubLoop_succ_skip id fuel nbrs num j hj hhit]
        exact hrec
    · rw [scrubLoop_succ_stop id fuel nbrs num j hj]
      exact ⟨le_refl _, rfl, fun k hk => hpre k (by omega)⟩

/-- `scrubNode` on a well-formed node: well-formedness is preserved, the
identity fields are untouched, and no active entry targets `id`. -/
lemma scrubNode_spec (id : Int) (n : NavNode) (hwf : n.wf) :
    (scrubNode id n).wf ∧ (scrubNode id n).id = n.id ∧
    (∀ k, k < (scrubNode id n).num_neighbors.toNat →
        (((scrubNode id n).nbrs.getD k sentinelNbr).target ≠ id)) := by
  obtain ⟨hlen, hn0, hn8⟩ := hwf
  have h8 : n.num_neighbors ≤ (8 : Int) := by
    simpa [MAX_NODE_NEIGHBORS] using hn8
  have hle : n.num_neighbors.toNat ≤ n.nbrs.length := by
    rw [hlen]; simp only [MAX_NODE_NEIGHBORS]; omega
  have h := scrubLoop_clean id n.num_neighbors.toNat n.nbrs n.num_neighbors.toNat 0
    hle (by omega) (fun k hk => absurd hk (Nat.not_lt_zero k))
  refine ⟨⟨?_, ?_, ?_⟩, rfl, ?_⟩
  · show (scrubLoop id _ _ _ _).1.length = MAX_NODE_NEIGHBORS
    rw [h.2.1, hlen]
  · show (0 : Int) ≤ ((scrubLoop id _ _ _ _).2 : Int)
    exact Int.natCast_nonneg _
  · show ((scrubLoop id _ _ _ _).2 : Int) ≤ (MAX_NODE_NEIGHBORS : Int)
    have h1 := h.1
    have h8n : n.num_neighbors.toNat ≤ MAX_NODE_NEIGHBORS := by
      simp only [MAX_NODE_NEIGHBORS]; omega
    exact_mod_cast le_trans h1 h8n
  · intro k hk
    have hk' : k < (scrubLoop id n.num_neighbors.toNat n.nbrs n.num_neighbors.toNat 0).2 := by
      simpa [scrubNode] using hk
    exact h.2.2 k hk'

/-- The free-slot scan succeeds when some slot in its window is free. -/
lemma findFreeSlot_isSome (nodes : Nat → NavNode) :
    ∀ fuel i, (∃ k, i ≤ k ∧ k < i + fuel ∧ (nodes k).id = BOT_INVALID_NODE) →
    (findFreeSlot nodes i fuel).isSome := by
  intro fuel
  induction fuel with
  | zero => intro i ⟨k, h1, h2, _⟩; omega
  | succ fuel ih =>
    intro i ⟨k, h1, h2, hfree⟩
    unfold findFreeSlot
    by_cases hi : (nodes i).id = BOT_INVALID_NODE
    · simp [hi]
    · have hki : k ≠ i := fun h => hi (h ▸ hfree)
      simp only [if_neg hi]
      exact ih (i + 1) ⟨k, by omega, by omega, hfree⟩

/-- C4: after `Node_Remove g X` (for a valid node id `X`) no remaining
valid node's active neighbor list contains `X` (duplicates included, by
the restart-scan), slot `X` is tombstoned (`id = BOT_INVALID_NODE`), and
a later `Node_Add` succeeds (the tombstoned slot guarantees a free slot). -/
theorem Node_Remove_scrubs_inbound_edges (g : NavGraph) (X : Int)
    (hwf : g.wf) (hX0 : 0 ≤ X) (hXc : X < g.count)
    (hXv : (g.nodes X.toNat).valid) :
    (∀ i, ((Node_Remove g X).nodes i).valid →
        ∀ k, k < ((Node_Remove g X).nodes i).num_neighbors.toNat →
          (((Node_Remove g X).nodes i).nbrs.getD k sentinelNbr).target ≠ X) ∧
    ((Node_Remove g X).nodes X.toNat).id = BOT_INVALID_NODE ∧
    (∀ origin flags, (Node_Add (Node_Remove g X) origin flags).1 ≠ BOT_INVALID_NODE) := by
  obtain ⟨hc0, hcM, hnwf, hvalid⟩ := hwf
  have hguard1 : ¬(X < 0 ∨ X ≥ g.count) := by omega
  have hguard2 : ¬((g.nodes X.toNat).id = BOT_INVALID_NODE) := hXv
  have hrm : Node_Remove g X =
      { nodes := Function.update
          (fun i => if (i : Int) < g.count ∧ (g.nodes i).valid
                    then scrubNode X (g.nodes i) else g.nodes i) X.toNat
          { (if (X.toNat : Int) < g.count ∧ (g.nodes X.toNat).valid
             then scrubNode X (g.nodes X.toNat) else g.nodes X.toNat) with
            id := BOT_INVALID_NODE, num_neighbors := 0 }
        count := g.count } := by
    unfold Node_Remove
    rw [if_neg hguard1, if_neg hguard2]
  have htomb : ((Node_Remove g X).nodes X.toNat).id = BOT_INVALID_NODE := by
    rw [hrm]; simp [Function.update]
  refine ⟨?_, htomb, ?_⟩
  · intro i hv k hk
    by_cases hiX : i = X.toNat
    · subst hiX
      exact absurd htomb hv
    · rw [hrm] at hv hk ⊢
      simp only [Function.update, dif_neg hiX] at hv hk ⊢
      by_cases hcond : (i : Int) < g.count ∧ (g.nodes i).valid
      · rw [if_pos hcond] at hv hk ⊢
        exact (scrubNode_spec X (g.nodes i) (hnwf i)).2.2 k hk
      · rw [if_neg hcond] at hv hk ⊢
        exact absurd ⟨(hvalid i hv).1, hv⟩ hcond
  · intro origin flags
    unfold Node_Add
    have hfree : ∃ k, 0 ≤ k ∧ k < 0 + MAX_NAV_NODES ∧
        ((Node_Remove g X).nodes k).id = BOT_INVALID_NODE := by
      refine ⟨X.toNat, Nat.zero_le _, ?_, htomb⟩
      have : X < (MAX_NAV_NODES : Int) := lt_of_lt_of_le hXc hcM
      omega
    have hsome := findFreeSlot_isSome (Node_Remove g X).nodes MAX_NAV_NODES 0 hfree
    obtain ⟨sl, hsl⟩ := Option.isSome_iff_exists.mp hsome
    rw [hsl]
    simp only []
    intro hcontra
    have : (0 : Int) ≤ (sl : Int) := Int.natCast_nonneg _
    rw [hcontra] at this
    exact absurd this (by norm_num [BOT_INVALID_NODE])

/-- An unoccupied slot as left by `Node_Clear`. -/
def wBlank : NavNode :=
  { id := BOT_INVALID_NODE, origin := ⟨0, 0, 0⟩, flags := 0, team_access := 0
    num_neighbors := 0, nbrs := List.replicate 8 sentinelNbr }

/-- Concrete node 0 (one outbound edge to node 1). -/
def wN0 : NavNode :=
  { id := 0, origin := ⟨0, 0, 0⟩, flags := 1, team_access := 3
    num_neighbors := 1, nbrs := ⟨1, 10, 0⟩ :: List.replicate 7 sentinelNbr }

/-- Concrete node 1, with a duplicate pair of edges back to node 0
(exercising the duplicate-scrub restart). -/
def wN1 : NavNode :=
  { id := 1, origin := ⟨10, 0, 0⟩, flags := 1, team_access := 3
    num_neighbors := 2, nbrs := ⟨0, 10, 0⟩ :: ⟨0, 5, 2⟩ :: List.replicate 6 sentinelNbr }

/-- A concrete two-node graph. -/
def gC4 : NavGraph :=
  { nodes := fun i => if i = 0 then wN0 else if i = 1 then wN1 else wBlank
    count := 2 }

lemma gC4_wf : gC4.wf := by
  refine ⟨by norm_num [gC4], by norm_num [gC4, MAX_NAV_NODES], ?_, ?_⟩
  · intro i
    by_cases h0 : i = 0
    · subst h0; decide
    · by_cases h1 : i = 1
      · subst h1; decide
      · show (gC4.nodes i).wf
        simp only [gC4, if_neg h0, if_neg h1]
        decide
  · intro i hv
    by_cases h0 : i = 0
    · subst h0; exact ⟨by decide, by decide⟩
    · by_cases h1 : i = 1
      · subst h1; exact ⟨by decide, by decide⟩
      · exfalso
        apply hv
        show (gC4.nodes i).id = BOT_INVALID_NODE
        simp only [gC4, if_neg h0, if_neg h1]
        decide

/-- Witness for C4 at the concrete graph `gC4`, removing node 0. -/
theorem Node_Remove_scrubs_inbound_edges_witness :
    gC4.wf ∧ (0 : Int) ≤ 0 ∧ (0 : Int) < gC4.count ∧ (gC4.nodes (0 : Int).toNat).valid ∧
    ((∀ i, ((Node_Remove gC4 0).nodes i).valid →
        ∀ k, k < ((Node_Remove gC4 0).nodes i).num_neighbors.toNat →
          (((Node_Remove gC4 0).nodes i).nbrs.getD k sentinelNbr).target ≠ 0) ∧
     ((Node_Remove gC4 0).nodes (0 : Int).toNat).id = BOT_INVALID_NODE ∧
     (∀ origin flags, (Node_Add (Node_Remove gC4 0) origin flags).1 ≠ BOT_INVALID_NODE)) := by
  have h := Node_Remove_scrubs_inbound_edges gC4 0 gC4_wf (by decide) (by decide) (by decide)
  exact ⟨gC4_wf, by decide, by decide, by decide, h⟩

/-! ## Binary persistence (`Node_Save` / `Node_Load`, `bot_nodes.c:227` / `bot_nodes.c:298`)

The `.nav` file is a flat sequence of fixed-width 4-byte fields written
with `fwrite` and read back with `fread`; we model it as a `List Field`,
one element per 4-byte field (`.i` for C `int`, `.n` for C
`unsigned int`, `.f` for C `float`).  `fread` hitting end-of-file is
modelled by the reader functions returning `none`. -/

inductive Field where
  | i (v : Int)
  | n (v : Nat)
  | f (v : ℚ)
deriving DecidableEq, Repr

/-- `NAV_FILE_MAGIC` (`"NAV1"` little-endian). -/
def NAV_FILE_MAGIC : Int := 0x3156414E

/-- `NAV_FILE_VERSION` -/
def NAV_FILE_VERSION : Int := 1

/-- One `fread` of a C `int` field. -/
def readInt : List Field → Option (Int × List Field)
  | .i v :: r => some (v, r)
  | _ => none

/-- One `fread` of a C `unsigned int` field. -/
def readNat : List Field → Option (Nat × List Field)
  | .n v :: r => some (v, r)
  | _ => none

/-- One `fread` of a C `float` field. -/
def readFlt : List Field → Option (ℚ × List Field)
  | .f v :: r => some (v, r)
  | _ => none

/-- The per-node neighbor read loop
`for (j = 0; j < MAX_NODE_NEIGHBORS; j++)`: reads `k` triples
`(neighbor_id, cost, move_type)`. -/
def readNbrs : Nat → List Field → Option (List NbrEntry × List Field)
  | 0, r => some ([], r)
  | k + 1, r =>
    match readInt r with
    | none => none
    | some (t, r1) =>
      match readFlt r1 with
      | none => none
      | some (c, r2) =>
        match readInt r2 with
        | none => none
        | some (m, r3) =>
          match readNbrs k r3 with
          | none => none
          | some (rest, r4) => some (⟨t, c, m⟩ :: rest, r4)

/-- Read one full node record (`id`, 3-float origin, `flags`,
`team_access`, `num_neighbors`, then all `MAX_NODE_NEIGHBORS` neighbor
triples); any truncation fails the whole record. -/
def readRecord (r : List Field) : Option (NavNode × List Field) :=
  match readInt r with
  | none => none
  | some (id, r1) =>
    match readFlt r1 with
    | none => none
    | some (ox, r2) =>
      match readFlt r2 with
      | none => none
      | some (oy, r3) =>
        match readFlt r3 with
        | none => none
        | some (oz, r4) =>
          match readNat r4 with
          | none => none
          | some (flags, r5) =>
            match readNat r5 with
            | none => none
            | some (team, r6) =>
              match readInt r6 with
              | none => none
              | some (num, r7) =>
                match readNbrs MAX_NODE_NEIGHBORS r7 with
                | none => none
                | some (nbrs, r8) =>
                  some (⟨id, ⟨ox, oy, oz⟩, flags, team, num, nbrs⟩, r8)

/-- `n.id = id; nav_nodes[id] = n; if (id >= nav_node_count)
nav_node_count = id + 1;` -/
def applyRecord (g : NavGraph) (raw : NavNode) : NavGraph :=
  { nodes := Function.update g.nodes raw.id.toNat raw
    count := if raw.id ≥ g.count then raw.id + 1 else g.count }

/-- The record-reading loop of `Node_Load`: reads `fuel` records,
validating each record's node index and neighbor count after reading it;
on any failure it stops, reporting failure, with all previously read
records already applied to the graph. -/
def loadLoop : Nat → List Field → NavGraph → Bool × NavGraph
  | 0, _, g => (true, g)
  | k + 1, r, g =>
    match readRecord r with
    | none => (false, g)
    | some (raw, r') =>
      if raw.id < 0 ∨ raw.id ≥ (MAX_NAV_NODES : Int) then (false, g)
      else if raw.num_neighbors < 0 ∨ raw.num_neighbors > (MAX_NODE_NEIGHBORS : Int) then
        (false, g)
      else loadLoop k r' (applyRecord g raw)

/-- `Node_Load`: header reads and validation happen against the prior
graph; only after the header is accepted is the graph cleared and the
record loop run. -/
def Node_Load (file : List Field) (g : NavGraph) : Bool × NavGraph :=
  match readInt file with
  | none => (false, g)
  | some (magic, r1) =>
    match readInt r1 with
    | none => (false, g)
    | some (version, r2) =>
      match readInt r2 with
      | none => (false, g)
      | some (count, r3) =>
        if magic ≠ NAV_FILE_MAGIC then (false, g)
        else if version ≠ NAV_FILE_VERSION then (false, g)
        else if count < 0 ∨ count > (MAX_NAV_NODES : Int) then (false, g)
        else loadLoop count.toNat r3 (Node_Clear g)

/-- One node record as written by `Node_Save` (all
`MAX_NODE_NEIGHBORS` neighbor triples are written, active or not). -/
def saveNode (nd : NavNode) : List Field :=
  [.i nd.id, .f nd.origin.x, .f nd.origin.y, .f nd.origin.z,
   .n nd.flags, .n nd.team_access, .i nd.num_neighbors] ++
  nd.nbrs.flatMap (fun e => [.i e.target, .f e.cost, .i e.move])

/-- The valid-node count written into the header. -/
def validCount (g : NavGraph) : Nat :=
  ((List.range g.count.toNat).filter (fun i => decide (g.nodes i).valid)).length

/-- The record-writing loop of `Node_Save` (invalid slots skipped). -/
def saveRecords (g : NavGraph) : List Field :=
  (List.range g.count.toNat).flatMap
    (fun i => if (g.nodes i).valid then saveNode (g.nodes i) else [])

/-- `Node_Save`: header then records. -/
def Node_Save (g : NavGraph) : List Field :=
  [.i NAV_FILE_MAGIC, .i NAV_FILE_VERSION, .i (validCount g : Int)] ++ saveRecords g

/-- Header-stage rejection of `Node_Load`: truncated header, bad magic,
bad version, or out-of-range node count. -/
def headerFailed (file : List Field) : Prop :=
  match readInt file with
  | none => True
  | some (magic, r1) =>
    match readInt r1 with
    | none => True
    | some (version, r2) =>
      match readInt r2 with
      | none => True
      | some (count, _) =>
        magic ≠ NAV_FILE_MAGIC ∨ version ≠ NAV_FILE_VERSION ∨
        count < 0 ∨ count > (MAX_NAV_NODES : Int)

/-! ## Claim C2: save-then-load round-trip -/

lemma readNbrs_flat (entries : List NbrEntry) (rest : List Field) :
    readNbrs entries.length
      (entries.flatMap (fun e => [.i e.target, .f e.cost, .i e.move]) ++ rest) =
    some (entries, rest) := by
  induction entries with
  | nil => rfl
  | cons e es ih =>
    simp only [List.flatMap_cons, List.length_cons, List.cons_append, List.append_assoc]
    show readNbrs (es.length + 1)
      (Field.i e.target :: Field.f e.cost :: Field.i e.move ::
        (es.flatMap (fun e => [.i e.target, .f e.cost, .i e.move]) ++ rest)) = _
    simp only [readNbrs, readInt, readFlt, ih]

lemma readRecord_saveNode (nd : NavNode) (hlen : nd.nbrs.length = MAX_NODE_NEIGHBORS)
    (rest : List Field) :
    readRecord (saveNode nd ++ rest) = some (nd, rest) := by
  unfold saveNode
  show readRecord
    (Field.i nd.id :: Field.f nd.origin.x :: Field.f nd.origin.y :: Field.f nd.origin.z ::
      Field.n nd.flags :: Field.n nd.team_access :: Field.i nd.num_neighbors ::
      (nd.nbrs.flatMap (fun e => [.i e.target, .f e.cost, .i e.move]) ++ rest)) = _
  simp only [readRecord, readInt, readFlt, readNat, ← hlen, readNbrs_flat]

lemma flatMap_ite_filter {α β : Type} (p : α → Prop) [DecidablePred p] (f : α → List β) :
    ∀ l : List α,
      (l.flatMap fun a => if p a then f a else []) =
        (l.filter fun a => decide (p a)).flatMap f := by
  intro l
  induction l with
  | nil => rfl
  | cons a l ih =>
    by_cases h : p a
    · simp [h, ih]
    · simp [h, ih]

/-- Loading exactly the concatenated records of the nodes listed in `L`
succeeds and overwrites precisely the slots in `L`. -/
lemma loadLoop_records (g : NavGraph) :
    ∀ (L : List Nat) (h : NavGraph) (rest : List Field),
    (∀ i ∈ L, (g.nodes i).valid ∧ (g.nodes i).wf ∧ (g.nodes i).id = (i : Int) ∧
        i < MAX_NAV_NODES) →
    (loadLoop L.length ((L.flatMap fun i => saveNode (g.nodes i)) ++ rest) h).1 = true ∧
    (∀ j, (loadLoop L.length ((L.flatMap fun i => saveNode (g.nodes i)) ++ rest) h).2.nodes j
        = if j ∈ L then g.nodes j else h.nodes j) := by
  intro L
  induction L with
  | nil =>
    intro h rest _
    exact ⟨rfl, fun j => by simp [loadLoop]⟩
  | cons i L ih =>
    intro h rest hL
    obtain ⟨hv, hwf, hid, hlt⟩ := hL i (List.mem_cons_self i L)
    have hflat : ((i :: L).flatMap fun i => saveNode (g.nodes i)) ++ rest =
        saveNode (g.nodes i) ++ ((L.flatMap fun i => saveNode (g.nodes i)) ++ rest) := by
      simp [List.flatMap_cons, List.append_assoc]
    have hrd := readRecord_saveNode (g.nodes i) hwf.1
        ((L.flatMap fun i => saveNode (g.nodes i)) ++ rest)
    have hg1 : ¬((g.nodes i).id < 0 ∨ (g.nodes i).id ≥ (MAX_NAV_NODES : Int)) := by
      rw [hid]; push_neg
      exact ⟨Int.natCast_nonneg i, by exact_mod_cast hlt⟩
    have hg2 : ¬((g.nodes i).num_neighbors < 0 ∨
        (g.nodes i).num_neighbors > (MAX_NODE_NEIGHBORS : Int)) := by
      push_neg; exact ⟨hwf.2.1, hwf.2.2⟩
    have hstep :
        loadLoop (i :: L).length (((i :: L).flatMap fun i => saveNode (g.nodes i)) ++ rest) h =
        loadLoop L.length ((L.flatMap fun i => saveNode (g.nodes i)) ++ rest)
          (applyRecord h (g.nodes i)) := by
      rw [hflat, List.length_cons]
      simp only [loadLoop, hrd, if_neg hg1, if_neg hg2]
    have hrest := ih (applyRecord h (g.nodes i)) rest
      (fun j hj => hL j (List.mem_cons_of_mem i hj))
    rw [hstep]
    refine ⟨hrest.1, ?_⟩
    intro j
    rw [hrest.2 j]
    by_cases hjL : j ∈ L
    · simp [hjL, List.mem_cons]
    · by_cases hji : j = i
      · subst hji
        simp [hjL, applyRecord, hid, Function.update]
      · have hjil : j ∉ i :: L := by
          simp [List.mem_cons, hji, hjL]
        have hup : (applyRecord h (g.nodes i)).nodes j = h.nodes j := by
          simp only [applyRecord]
          rw [Function.update_apply]
          rw [if_neg (by simp [hid, hji])]
        simp [hjL, hjil, hup]

/-- C2: `Node_Save` followed by `Node_Load` (into any prior graph state)
succeeds and reproduces the identical node/edge set: every valid node
keeps its id, origin, flags, team access, neighbor count and per-neighbor
(target, cost, movement) entries, and no other valid nodes exist. -/
theorem Node_Save_Load_roundtrip (g h : NavGraph) (hwf : g.wf) :
    (Node_Load (Node_Save g) h).1 = true ∧
    ∀ i, (((Node_Load (Node_Save g) h).2.nodes i).valid ↔ (g.nodes i).valid) ∧
         ((g.nodes i).valid → (Node_Load (Node_Save g) h).2.nodes i = g.nodes i) := by
  obtain ⟨hc0, hcM, hnwf, hval⟩ := hwf
  have hrecords : saveRecords g =
      ((List.range g.count.toNat).filter fun i => decide (g.nodes i).valid).flatMap
        (fun i => saveNode (g.nodes i)) := by
    unfold saveRecords
    exact flatMap_ite_filter (fun i => (g.nodes i).valid)
      (fun i => saveNode (g.nodes i)) _
  set L : List Nat := (List.range g.count.toNat).filter (fun i => decide (g.nodes i).valid)
    with hLdef
  have hmemL : ∀ j, j ∈ L ↔ j < g.count.toNat ∧ (g.nodes j).valid := by
    intro j
    rw [hLdef]
    simp [List.mem_filter, List.mem_range, and_comm]
  have hcount : g.count.toNat ≤ MAX_NAV_NODES := by
    have : ((MAX_NAV_NODES : Nat) : Int) = (MAX_NAV_NODES : Int) := rfl
    omega
  have hLlen : L.length ≤ MAX_NAV_NODES :=
    le_trans (le_trans (List.length_filter_le _ _) (by rw [List.length_range])) hcount
  have hLprop : ∀ i ∈ L, (g.nodes i).valid ∧ (g.nodes i).wf ∧ (g.nodes i).id = (i : Int) ∧
      i < MAX_NAV_NODES := by
    intro i hi
    have h1 := (hmemL i).mp hi
    exact ⟨h1.2, hnwf i, (hval i h1.2).2, lt_of_lt_of_le h1.1 hcount⟩
  have hrun := loadLoop_records g L (Node_Clear h) [] hLprop
  have hvcnt : ((validCount g : Int)).toNat = L.length := by
    simp [validCount, hLdef]
  have hload : Node_Load (Node_Save g) h =
      loadLoop L.length ((L.flatMap fun i => saveNode (g.nodes i)) ++ []) (Node_Clear h) := by
    show Node_Load
        (Field.i NAV_FILE_MAGIC :: Field.i NAV_FILE_VERSION ::
          Field.i (validCount g : Int) :: saveRecords g) h = _
    have hvl : validCount g = L.length := by rw [validCount, ← hLdef]
    have hcguard : ¬((validCount g : Int) < 0 ∨ (validCount g : Int) > (MAX_NAV_NODES : Int)) := by
      push_neg
      refine ⟨Int.natCast_nonneg _, ?_⟩
      exact_mod_cast (hvl ▸ hLlen : validCount g ≤ MAX_NAV_NODES)
    simp only [Node_Load, readInt]
    rw [if_neg (by simp), if_neg (by simp), if_neg hcguard]
    rw [hvcnt, hrecords, List.append_nil]
  rw [hload]
  refine ⟨hrun.1, ?_⟩
  intro i
  rw [hrun.2 i]
  by_cases hiL : i ∈ L
  · exact ⟨by rw [if_pos hiL], fun _ => by rw [if_pos hiL]⟩
  · simp only [if_neg hiL]
    have hclear : ¬((Node_Clear h).nodes i).valid := by
      simp [Node_Clear, NavNode.valid]
    have hginv : ¬(g.nodes i).valid := by
      intro hvi
      exact hiL ((hmemL i).mpr ⟨by
        have := (hval i hvi).1
        omega, hvi⟩)
    exact ⟨by simp [hclear, hginv], fun hvi => absurd hvi hginv⟩

/-- Witness for C2 at the concrete two-node graph `gC4`. -/
theorem Node_Save_Load_roundtrip_witness :
    gC4.wf ∧
    ((Node_Load (Node_Save gC4) gC4).1 = true ∧
     ∀ i, (((Node_Load (Node_Save gC4) gC4).2.nodes i).valid ↔ (gC4.nodes i).valid) ∧
          ((gC4.nodes i).valid → (Node_Load (Node_Save gC4) gC4).2.nodes i = gC4.nodes i)) :=
  ⟨gC4_wf, Node_Save_Load_roundtrip gC4 gC4 gC4_wf⟩

/-! ## Claim C1: wholesale abort of a rejected load -/

instance instDecHeaderFailed (file : List Field) : Decidable (headerFailed file) :=
  match hf : readInt file with
  | none => .isTrue (by simp [headerFailed, hf])
  | some (magic, r1) =>
    match hf1 : readInt r1 with
    | none => .isTrue (by simp [headerFailed, hf, hf1])
    | some (version, r2) =>
      match hf2 : readInt r2 with
      | none => .isTrue (by simp [headerFailed, hf, hf1, hf2])
      | some (count, r3) =>
        decidable_of_iff
          (magic ≠ NAV_FILE_MAGIC ∨ version ≠ NAV_FILE_VERSION ∨
            count < 0 ∨ count > (MAX_NAV_NODES : Int))
          (by simp [headerFailed, hf, hf1, hf2])

/-- C1 (amended): on a header-stage rejection (truncated header, magic
mismatch, version mismatch, or out-of-range node count) `Node_Load`
reports failure and leaves the prior in-memory graph exactly untouched.
(Record-stage rejections also report failure, but they occur after
`Node_Clear`, so the prior graph is gone and the already-read record
prefix remains applied — see the counterexample.) -/
theorem Node_Load_header_reject_untouched (file : List Field) (g : NavGraph)
    (h : headerFailed file) : Node_Load file g = (false, g) := by
  rcases hf : readInt file with _ | ⟨magic, r1⟩
  · simp [Node_Load, hf]
  · rcases hf1 : readInt r1 with _ | ⟨version, r2⟩
    · simp [Node_Load, hf, hf1]
    · rcases hf2 : readInt r2 with _ | ⟨count, r3⟩
      · simp [Node_Load, hf, hf1, hf2]
      · simp only [headerFailed, hf, hf1, hf2] at h
        simp only [Node_Load, hf, hf1, hf2]
        rcases h with h | h | h | h
        · rw [if_pos h]
        · by_cases h1 : magic ≠ NAV_FILE_MAGIC
          · rw [if_pos h1]
          · rw [if_neg h1, if_pos h]
        · by_cases h1 : magic ≠ NAV_FILE_MAGIC
          · rw [if_pos h1]
          · by_cases h2 : version ≠ NAV_FILE_VERSION
            · rw [if_neg h1, if_pos h2]
            · rw [if_neg h1, if_neg h2, if_pos (Or.inl h)]
        · by_cases h1 : magic ≠ NAV_FILE_MAGIC
          · rw [if_pos h1]
          · by_cases h2 : version ≠ NAV_FILE_VERSION
            · rw [if_neg h1, if_pos h2]
            · rw [if_neg h1, if_neg h2, if_pos (Or.inr h)]

/-- Witness for the amended C1: a concrete bad-magic file against the
concrete graph `gC4`. -/
theorem Node_Load_header_reject_untouched_witness :
    headerFailed [Field.i 0, Field.i 1, Field.i 0] ∧
    Node_Load [Field.i 0, Field.i 1, Field.i 0] gC4 = (false, gC4) :=
  ⟨by decide,
   Node_Load_header_reject_untouched [Field.i 0, Field.i 1, Field.i 0] gC4 (by decide)⟩

/-- A file with a correct header announcing two node records, a complete
first record (node index 0, flags 7, no active neighbors), and nothing
after it (truncated second record). -/
def c1File : List Field :=
  [.i NAV_FILE_MAGIC, .i NAV_FILE_VERSION, .i 2,
   .i 0, .f 0, .f 0, .f 0, .n 7, .n 3, .i 0] ++
  (List.replicate 8 sentinelNbr).flatMap (fun e => [.i e.target, .f e.cost, .i e.move])

/-- Counterexample to C1 as stated: `Node_Load c1File gC4` is rejected
(truncated at the second record, failure reported), yet the file's first
node record HAS been applied to the graph (slot 0 now holds the file's
node, flags 7 instead of the prior 1) and the prior graph was erased
(slot 1, valid before the load, is gone) — the load is not wholesale. -/
theorem Node_Load_partial_overwrite_counterexample :
    (Node_Load c1File gC4).1 = false ∧
    ((Node_Load c1File gC4).2.nodes 0).valid ∧
    ((Node_Load c1File gC4).2.nodes 0).flags = 7 ∧
    (gC4.nodes 0).flags = 1 ∧
    ¬((Node_Load c1File gC4).2.nodes 1).valid ∧
    (gC4.nodes 1).valid := by decide

/-! ## Pathfinding (`bot_nav.c`)

The agent-side inputs of `BotNav_FindPath` are reduced to the two
capability predicates it consults (`Bot_CanWallWalk(bs)` and
`Gloom_ClassCanFly(bs->gloom_class)`), the agent's position, and its
navigation sub-state.  The Euclidean heuristic `BotNav_Heuristic`
(`VectorLength`, a float `sqrt`) is an explicit function parameter
`dist`; no verified property depends on its values. -/

structure BotCaps where
  canWallWalk : Bool
  canFly      : Bool
deriving DecidableEq, Repr

/-- `BotNav_CanTraverse` (`bot_nav.c:52`): the capability filter switch. -/
def BotNav_CanTraverse (caps : BotCaps) (move_type : Int) : Bool :=
  if move_type = NAV_MOVE_WALK ∨ move_type = NAV_MOVE_JUMP ∨
     move_type = NAV_MOVE_SWIM ∨ move_type = NAV_MOVE_LADDER then true
  else if move_type = NAV_MOVE_CLIMB then caps.canWallWalk
  else if move_type = NAV_MOVE_FLY then caps.canFly
  else true

/-- `BotNav_NearestNode` (`bot_nav.c:283`): wall-capable agents accept
any node; others require `NAV_GROUND`. -/
def BotNav_NearestNode (g : NavGraph) (origin : Vec3) (allow_wall_nodes : Bool) : Int :=
  Node_FindNearest g origin (if allow_wall_nodes then 0 else NAV_GROUND) 0

/-- `astar_entry_t`. -/
structure AStarEntry where
  node_id : Int
  g_cost  : ℚ
  f_cost  : ℚ
deriving DecidableEq, Repr

/-- Placeholder read of an `astar_entry_t` slot (never hit in bounds). -/
def dfltEntry : AStarEntry := ⟨BOT_INVALID_NODE, 0, 0⟩

/-- The A* working arrays of `BotNav_FindPath`: `open_set[]`/`open_count`
(as the active list prefix), `g_cost[]`, `came_from[]`, `closed[]`. -/
structure AStarState where
  openSet  : List AStarEntry
  gCost    : Nat → ℚ
  cameFrom : Nat → Int
  closed   : Nat → Bool

/-- The minimum-f scan `for (i = 1; i < open_count; i++)` over indices
`0..k`; strict `<` keeps the first minimal index. -/
def bestScan (l : List AStarEntry) : Nat → Nat × ℚ
  | 0 => (0, (l.getD 0 dfltEntry).f_cost)
  | k + 1 =>
    let b := bestScan l k
    if (l.getD (k + 1) dfltEntry).f_cost < b.2 then (k + 1, (l.getD (k + 1) dfltEntry).f_cost)
    else b

/-- Index of the open-set entry with lowest f-cost. -/
def findBestIdx (l : List AStarEntry) : Nat := (bestScan l (l.length - 1)).1

/-- `open_set[best_idx] = open_set[open_count-1]; open_count--;` -/
def removeSwap (l : List AStarEntry) (idx : Nat) : List AStarEntry :=
  (l.set idx (l.getD (l.length - 1) dfltEntry)).dropLast

/-- The update-existing-entry scan of the open set: `some` when an entry
with the given node id was found and overwritten (the C `found` flag). -/
def openReplace (nid : Int) (gq f : ℚ) : List AStarEntry → Option (List AStarEntry)
  | [] => none
  | e :: rest =>
    if e.node_id = nid then some (⟨nid, gq, f⟩ :: rest)
    else
      match openReplace nid gq f rest with
      | none => none
      | some rest' => some (e :: rest')

/-- Add to the open set, or update the existing entry; a full open set
drops the insertion (`open_count < MAX_NAV_NODES`). -/
def updateOpen (l : List AStarEntry) (nid : Int) (gq f : ℚ) : List AStarEntry :=
  match openReplace nid gq f l with
  | some l' => l'
  | none => if l.length < MAX_NAV_NODES then l ++ [⟨nid, gq, f⟩] else l

/-- One neighbor-relaxation step of the A* expansion (loop body for
neighbor index `j` of node `current`). -/
def relaxNbr (caps : BotCaps) (g : NavGraph) (dist : Vec3 → Vec3 → ℚ)
    (goalOrigin : Vec3) (current : Int) (j : Nat) (st : AStarState) : AStarState :=
  let e := (g.nodes current.toNat).nbrs.getD j sentinelNbr
  let neighbor := e.target
  if neighbor < 0 ∨ neighbor ≥ g.count then st
  else if (g.nodes neighbor.toNat).id = BOT_INVALID_NODE then st
  else if st.closed neighbor.toNat then st
  else if ¬ BotNav_CanTraverse caps e.move then st
  else
    let tentative := st.gCost current.toNat + e.cost
    if tentative ≥ st.gCost neighbor.toNat then st
    else
      let f := tentative + dist (g.nodes neighbor.toNat).origin goalOrigin
      { openSet := updateOpen st.openSet neighbor tentative f
        gCost    := Function.update st.gCost neighbor.toNat tentative
        cameFrom := Function.update st.cameFrom neighbor.toNat current
        closed   := st.closed }

/-- The neighbor expansion loop
`for (j = 0; j < nav_nodes[current].num_neighbors; j++)`:
`expandLoop … k st` has processed neighbor indices `0 .. k-1`. -/
def expandLoop (caps : BotCaps) (g : NavGraph) (dist : Vec3 → Vec3 → ℚ)
    (goalOrigin : Vec3) (current : Int) : Nat → AStarState → AStarState
  | 0, st => st
  | k + 1, st => relaxNbr caps g dist goalOrigin current k
      (expandLoop caps g dist goalOrigin current k st)

/-- The path-reconstruction loop
`while (node != BOT_INVALID_NODE && path_len < BOT_MAX_PATH_NODES)`:
produces `path_buf` in goal→start order, fuel counting the pushes. -/
def reconstruct (cameFrom : Nat → Int) (start_node : Int) : Nat → Int → List Int
  | 0, _ => []
  | fuel + 1, node =>
    if node = BOT_INVALID_NODE then []
    else if node = start_node then [node]
    else node :: reconstruct cameFrom start_node fuel (cameFrom node.toNat)

/-- The main A* loop of `BotNav_FindPath`.  Returns the reconstructed
`path_buf` (goal→start) on success, `none` on open-set exhaustion.
`fuel` bounds the number of iterations; the C loop pops one never-closed
node per iteration so it runs at most `MAX_NAV_NODES` times, and every
verified property holds for every `fuel`. -/
def astarLoop (caps : BotCaps) (g : NavGraph) (dist : Vec3 → Vec3 → ℚ)
    (goalOrigin : Vec3) (start_node goal_node : Int) :
    Nat → AStarState → Option (List Int)
  | 0, _ => none
  | fuel + 1, st =>
    if st.openSet.length = 0 then none
    else
      let bi := findBestIdx st.openSet
      let current := (st.openSet.getD bi dfltEntry).node_id
      let open1 := removeSwap st.openSet bi
      if current = goal_node then
        some (reconstruct st.cameFrom start_node BOT_MAX_PATH_NODES goal_node)
      else
        let st1 : AStarState :=
          { openSet := open1, gCost := st.gCost, cameFrom := st.cameFrom
            closed := Function.update st.closed current.toNat true }
        astarLoop caps g dist goalOrigin start_node goal_node fuel
          (expandLoop caps g dist goalOrigin current
            (g.nodes current.toNat).num_neighbors.toNat st1)

/-- The navigation sub-state `bot_nav_state_t` (`bot.h`), with the
`path[BOT_MAX_PATH_NODES]` array as a total function on indices. -/
structure NavState where
  current_node : Int
  goal_node    : Int
  path         : Nat → Int
  path_length  : Int
  path_index   : Int
  goal_origin  : Vec3
  arrived_dist : ℚ
  path_valid   : Bool

/-- Write a reconstructed path list into the fixed `path[]` array
(`for (i = 0; i < path_len; i++) bs->nav.path[i] = …`). -/
def writePath (old : Nat → Int) (l : List Int) : Nat → Int :=
  fun i => if i < l.length then l.getD i BOT_INVALID_NODE else old i

/-- `BotNav_FindPath` (`bot_nav.c:80`). -/
def BotNav_FindPath (caps : BotCaps) (g : NavGraph) (dist : Vec3 → Vec3 → ℚ)
    (fuel : Nat) (selfOrigin goal : Vec3) (nav : NavState) : NavState :=
  let nav0 : NavState :=
    { nav with goal_origin := goal, goal_node := BOT_INVALID_NODE
               path_valid := false, path_length := 0, path_index := 0 }
  if g.count = 0 then nav0
  else
    let start_node := BotNav_NearestNode g selfOrigin caps.canWallWalk
    let goal_node  := BotNav_NearestNode g goal caps.canWallWalk
    if start_node = BOT_INVALID_NODE ∨ goal_node = BOT_INVALID_NODE then nav0
    else if start_node = goal_node then
      { nav0 with goal_node := goal_node, path := writePath nav.path [goal_node]
                  path_length := 1, path_index := 0, path_valid := true }
    else
      let st0 : AStarState :=
        { openSet := [⟨start_node, 0,
            dist (g.nodes start_node.toNat).origin (g.nodes goal_node.toNat).origin⟩]
          gCost := Function.update (fun _ => FLT_MAX_Q) start_node.toNat 0
          cameFrom := fun _ => BOT_INVALID_NODE
          closed := fun _ => false }
      match astarLoop caps g dist (g.nodes goal_node.toNat).origin
          start_node goal_node fuel st0 with
      | none => nav0
      | some path_buf =>
        let path_list := path_buf.reverse
        { nav0 with goal_node := goal_node
                    path := writePath nav.path path_list
                    path_length := (path_list.length : Int)
                    path_index := 0
                    path_valid := true }

/-! ## Claim C3: paths never use edges the agent cannot traverse -/

lemma getD_mem {α : Type} (l : List α) (i : Nat) (d : α) (h : i < l.length) :
    l.getD i d ∈ l := by
  rw [List.getD_eq_getElem?_getD, List.getElem?_eq_getElem h]
  exact List.getElem_mem h

/-- The `came_from` invariant: every recorded parent link corresponds to
an active neighbor edge of the parent node whose movement type the agent
can traverse. -/
def traversableParent (caps : BotCaps) (g : NavGraph) (cf : Nat → Int) : Prop :=
  ∀ n : Nat, cf n ≠ BOT_INVALID_NODE →
    0 ≤ cf n ∧
    ∃ j, j < (g.nodes (cf n).toNat).num_neighbors.toNat ∧
      ((g.nodes (cf n).toNat).nbrs.getD j sentinelNbr).target = (n : Int) ∧
      BotNav_CanTraverse caps ((g.nodes (cf n).toNat).nbrs.getD j sentinelNbr).move = true

/-- Combined A* loop invariant: parent links are capability-correct and
every open-set entry has a non-negative node id. -/
def astarInv (caps : BotCaps) (g : NavGraph) (st : AStarState) : Prop :=
  traversableParent caps g st.cameFrom ∧ ∀ e ∈ st.openSet, 0 ≤ e.node_id

lemma openReplace_mem (nid : Int) (gq f : ℚ) :
    ∀ (l l' : List AStarEntry), openReplace nid gq f l = some l' →
    ∀ e ∈ l', e ∈ l ∨ e = ⟨nid, gq, f⟩ := by
  intro l
  induction l with
  | nil => intro l' h; exact absurd h (by simp [openReplace])
  | cons a rest ih =>
    intro l' h e he
    by_cases ha : a.node_id = nid
    · rw [openReplace, if_pos ha] at h
      cases h
      rcases he with _ | he
      · right; rfl
      · left; exact List.mem_cons_of_mem a (by assumption)
    · rw [openReplace, if_neg ha] at h
      rcases hrec : openReplace nid gq f rest with _ | rest'
      · rw [hrec] at h; cases h
      · rw [hrec] at h
        cases h
        rcases he with _ | he
        · left; exact List.mem_cons_self a rest
        · rcases ih rest' hrec e (by assumption) with h1 | h1
          · left; exact List.mem_cons_of_mem a h1
          · right; exact h1

lemma updateOpen_nonneg (l : List AStarEntry) (nid : Int) (gq f : ℚ)
    (hl : ∀ e ∈ l, 0 ≤ e.node_id) (hn : 0 ≤ nid) :
    ∀ e ∈ updateOpen l nid gq f, 0 ≤ e.node_id := by
  intro e he
  unfold updateOpen at he
  rcases hrep : openReplace nid gq f l with _ | l'
  · rw [hrep] at he
    by_cases hlen : l.length < MAX_NAV_NODES
    · rw [if_pos hlen] at he
      rcases List.mem_append.mp he with h1 | h1
      · exact hl e h1
      · simp only [List.mem_singleton] at h1
        rw [h1]; exact hn
    · rw [if_neg hlen] at he
      exact hl e he
  · rw [hrep] at he
    rcases openReplace_mem nid gq f l l' hrep e he with h1 | h1
    · exact hl e h1
    · rw [h1]; exact hn

lemma relaxNbr_inv (caps : BotCaps) (g : NavGraph) (dist : Vec3 → Vec3 → ℚ)
    (go : Vec3) (current : Int) (j : Nat) (st : AStarState)
    (hj : j < (g.nodes current.toNat).num_neighbors.toNat)
    (hcur : 0 ≤ current) (hinv : astarInv caps g st) :
    astarInv caps g (relaxNbr caps g dist go current j st) := by
  unfold relaxNbr
  set e := (g.nodes current.toNat).nbrs.getD j sentinelNbr with he
  by_cases h1 : e.target < 0 ∨ e.target ≥ g.count
  · rw [if_pos h1]; exact hinv
  rw [if_neg h1]
  by_cases h2 : (g.nodes e.target.toNat).id = BOT_INVALID_NODE
  · rw [if_pos h2]; exact hinv
  rw [if_neg h2]
  by_cases h3 : st.closed e.target.toNat
  · rw [if_pos h3]; exact hinv
  rw [if_neg h3]
  by_cases h4 : ¬ BotNav_CanTraverse caps e.move
  · rw [if_pos h4]; exact hinv
  rw [if_neg h4]
  by_cases h5 : st.gCost current.toNat + e.cost ≥ st.gCost e.target.toNat
  · rw [if_pos h5]; exact hinv
  rw [if_neg h5]
  push_neg at h1 h4
  refine ⟨?_, ?_⟩
  · intro n hn
    dsimp only at hn ⊢
    by_cases hne : n = e.target.toNat
    · subst hne
      rw [Function.update_same] at hn ⊢
      refine ⟨hcur, j, hj, ?_, ?_⟩
      · rw [← he, Int.toNat_of_nonneg h1.1]
      · rw [← he]; exact h4
    · rw [Function.update_apply, if_neg hne] at hn ⊢
      exact hinv.1 n hn
  · intro x hx
    dsimp only at hx
    exact updateOpen_nonneg st.openSet e.target _ _ hinv.2 h1.1 x hx

lemma expandLoop_inv (caps : BotCaps) (g : NavGraph) (dist : Vec3 → Vec3 → ℚ)
    (go : Vec3) (current : Int) (hcur : 0 ≤ current) :
    ∀ k, k ≤ (g.nodes current.toNat).num_neighbors.toNat →
    ∀ st, astarInv caps g st →
    astarInv caps g (expandLoop caps g dist go current k st) := by
  intro k
  induction k with
  | zero => intro _ st h; exact h
  | succ k ih =>
    intro hk st h
    exact relaxNbr_inv caps g dist go current k _ (by omega) hcur
      (ih (by omega) st h)

lemma bestScan_le (l : List AStarEntry) : ∀ k, (bestScan l k).1 ≤ k := by
  intro k
  induction k with
  | zero => exact Nat.le_refl 0
  | succ k ih =>
    unfold bestScan
    by_cases h : (l.getD (k + 1) dfltEntry).f_cost < (bestScan l k).2
    · rw [if_pos h]
    · rw [if_neg h]; exact Nat.le_succ_of_le ih

lemma findBestIdx_lt (l : List AStarEntry) (h : l.length ≠ 0) :
    findBestIdx l < l.length :=
  lt_of_le_of_lt (bestScan_le l _) (by omega)

lemma removeSwap_mem (l : List AStarEntry) (idx : Nat) (hne : l.length ≠ 0) :
    ∀ e ∈ removeSwap l idx, e ∈ l := by
  intro e he
  unfold removeSwap at he
  have h1 := List.dropLast_subset _ he
  rcases List.mem_or_eq_of_mem_set h1 with h2 | h2
  · exact h2
  · rw [h2]
    exact getD_mem l (l.length - 1) dfltEntry (by omega)

lemma astarLoop_spec (caps : BotCaps) (g : NavGraph) (dist : Vec3 → Vec3 → ℚ)
    (go : Vec3) (s gl : Int) :
    ∀ fuel st pbuf, astarInv caps g st →
    astarLoop caps g dist go s gl fuel st = some pbuf →
    ∃ cf : Nat → Int, traversableParent caps g cf ∧
      pbuf = reconstruct cf s BOT_MAX_PATH_NODES gl := by
  intro fuel
  induction fuel with
  | zero => intro st pbuf _ h; exact absurd h (by simp [astarLoop])
  | succ fuel ih =>
    intro st pbuf hinv h
    rw [astarLoop] at h
    by_cases hop : st.openSet.length = 0
    · rw [if_pos hop] at h; cases h
    · rw [if_neg hop] at h
      by_cases hgl : (st.openSet.getD (findBestIdx st.openSet) dfltEntry).node_id = gl
      · rw [if_pos hgl] at h
        cases h
        exact ⟨st.cameFrom, hinv.1, rfl⟩
      · rw [if_neg hgl] at h
        have hcur : 0 ≤ (st.openSet.getD (findBestIdx st.openSet) dfltEntry).node_id :=
          hinv.2 _ (getD_mem _ _ _ (findBestIdx_lt _ hop))
        refine ih _ pbuf ?_ h
        refine expandLoop_inv caps g dist go _ hcur _ (le_refl _) _ ⟨hinv.1, ?_⟩
        intro x hx
        exact hinv.2 x (removeSwap_mem _ _ hop x hx)

lemma reconstruct_head (cf : Nat → Int) (s : Int) :
    ∀ fuel m, reconstruct cf s fuel m ≠ [] →
    (reconstruct cf s fuel m).getD 0 BOT_INVALID_NODE = m := by
  intro fuel m hne
  cases fuel with
  | zero => exact absurd rfl hne
  | succ fuel =>
    unfold reconstruct at hne ⊢
    by_cases h1 : m = BOT_INVALID_NODE
    · rw [if_pos h1] at hne; exact absurd rfl hne
    · rw [if_neg h1] at hne ⊢
      by_cases h2 : m = s
      · rw [if_pos h2]; rfl
      · rw [if_neg h2]; rfl

lemma reconstruct_invalid (cf : Nat → Int) (s : Int) :
    ∀ fuel, reconstruct cf s fuel BOT_INVALID_NODE = [] := by
  intro fuel
  cases fuel with
  | zero => rfl
  | succ fuel => simp [reconstruct]

lemma reconstruct_mem_nonneg (cf : Nat → Int)
    (htp : ∀ n, cf n ≠ BOT_INVALID_NODE → 0 ≤ cf n) (s : Int) :
    ∀ fuel m, 0 ≤ m → ∀ x ∈ reconstruct cf s fuel m, 0 ≤ x := by
  intro fuel
  induction fuel with
  | zero => intro m _ x hx; exact absurd hx (by simp [reconstruct])
  | succ fuel ih =>
    intro m hm x hx
    unfold reconstruct at hx
    by_cases h1 : m = BOT_INVALID_NODE
    · rw [if_pos h1] at hx; exact absurd hx (List.not_mem_nil x)
    · rw [if_neg h1] at hx
      by_cases h2 : m = s
      · rw [if_pos h2] at hx
        simp only [List.mem_singleton] at hx
        rw [hx]; exact hm
      · rw [if_neg h2] at hx
        rcases List.mem_cons.mp hx with h3 | h3
        · rw [h3]; exact hm
        · by_cases h4 : cf m.toNat = BOT_INVALID_NODE
          · rw [h4, reconstruct_invalid] at h3
            exact absurd h3 (List.not_mem_nil x)
          · exact ih (cf m.toNat) (htp m.toNat h4) x h3

lemma reconstruct_chain (cf : Nat → Int) (s : Int) :
    ∀ fuel m t, t + 1 < (reconstruct cf s fuel m).length →
    (reconstruct cf s fuel m).getD (t + 1) BOT_INVALID_NODE =
      cf ((reconstruct cf s fuel m).getD t BOT_INVALID_NODE).toNat := by
  intro fuel
  induction fuel with
  | zero => intro m t ht; simp [reconstruct] at ht
  | succ fuel ih =>
    intro m t ht
    unfold reconstruct at ht ⊢
    by_cases h1 : m = BOT_INVALID_NODE
    · rw [if_pos h1] at ht; simp at ht
    · rw [if_neg h1] at ht ⊢
      by_cases h2 : m = s
      · rw [if_pos h2] at ht; simp at ht
      · rw [if_neg h2] at ht ⊢
        cases t with
        | zero =>
          simp only [List.getD_cons_succ, List.getD_cons_zero]
          apply reconstruct_head
          simp only [List.length_cons] at ht
          intro hnil
          rw [hnil] at ht
          simp at ht
        | succ t =>
          simp only [List.getD_cons_succ]
          apply ih
          simp only [List.length_cons] at ht
          omega

lemma findNearestLoop_fst (g : NavGraph) (o : Vec3) (rf : Nat) (init : Int × ℚ) :
    ∀ k, (findNearestLoop g o rf k init).1 = init.1 ∨
      ∃ i, (findNearestLoop g o rf k init).1 = (g.nodes i).id ∧ (g.nodes i).valid := by
  intro k
  induction k with
  | zero => left; rfl
  | succ k ih =>
    unfold findNearestLoop
    by_cases h1 : (g.nodes k).id = BOT_INVALID_NODE
    · rw [if_pos h1]; exact ih
    · rw [if_neg h1]
      by_cases h2 : rf ≠ 0 ∧ (g.nodes k).flags &&& rf ≠ rf
      · rw [if_pos h2]; exact ih
      · rw [if_neg h2]
        by_cases h3 : vdot (vsub o (g.nodes k).origin) (vsub o (g.nodes k).origin) <
            (findNearestLoop g o rf k init).2
        · rw [if_pos h3]
          right
          exact ⟨k, rfl, h1⟩
        · rw [if_neg h3]; exact ih

lemma Node_FindNearest_cases (g : NavGraph) (hwf : g.wf) (o : Vec3) (rf : Nat)
    (mr : ℚ) :
    Node_FindNearest g o rf mr = BOT_INVALID_NODE ∨
      0 ≤ Node_FindNearest g o rf mr := by
  unfold Node_FindNearest
  rcases findNearestLoop_fst g o rf _ g.count.toNat with h | ⟨i, hi, hv⟩
  · left; exact h
  · right
    rw [hi, (hwf.2.2.2 i hv).2]
    exact Int.natCast_nonneg i

lemma getD_reverse {l : List Int} {i : Nat} (h : i < l.length) :
    l.reverse.getD i BOT_INVALID_NODE = l.getD (l.length - 1 - i) BOT_INVALID_NODE := by
  have h1 : i < l.reverse.length := by simpa using h
  have h2 : l.length - 1 - i < l.length := by omega
  rw [List.getD_eq_getElem?_getD, List.getD_eq_getElem?_getD,
      List.getElem?_eq_getElem h1, List.getElem?_eq_getElem h2]
  simp only [Option.getD_some]
  exact List.getElem_reverse h1

/-- C3: whenever `BotNav_FindPath` produces a valid path, every pair of
consecutive path nodes is joined by an active neighbor edge whose
movement type the agent can traverse (`BotNav_CanTraverse`: walk, jump,
swim and ladder edges are universal; climb edges require the wall-walk
capability; fly edges the flight capability). -/
theorem BotNav_FindPath_capability_filtered
    (caps : BotCaps) (g : NavGraph) (dist : Vec3 → Vec3 → ℚ) (fuel : Nat)
    (selfOrigin goal : Vec3) (nav : NavState) (hwf : g.wf)
    (hvalid : (BotNav_FindPath caps g dist fuel selfOrigin goal nav).path_valid = true) :
    ∀ t : Nat,
      (t : Int) + 1 < (BotNav_FindPath caps g dist fuel selfOrigin goal nav).path_length →
      ∃ p q : Nat,
        (BotNav_FindPath caps g dist fuel selfOrigin goal nav).path t = (p : Int) ∧
        (BotNav_FindPath caps g dist fuel selfOrigin goal nav).path (t + 1) = (q : Int) ∧
        ∃ j, j < (g.nodes p).num_neighbors.toNat ∧
          ((g.nodes p).nbrs.getD j sentinelNbr).target = (q : Int) ∧
          BotNav_CanTraverse caps ((g.nodes p).nbrs.getD j sentinelNbr).move = true := by
  intro t ht
  unfold BotNav_FindPath at hvalid ht ⊢
  by_cases hc : g.count = 0
  · rw [if_pos hc] at hvalid
    simp at hvalid
  rw [if_neg hc] at hvalid ht ⊢
  by_cases hng : BotNav_NearestNode g selfOrigin caps.canWallWalk = BOT_INVALID_NODE ∨
      BotNav_NearestNode g goal caps.canWallWalk = BOT_INVALID_NODE
  · rw [if_pos hng] at hvalid
    simp at hvalid
  rw [if_neg hng] at hvalid ht ⊢
  push_neg at hng
  have hgn0 : 0 ≤ BotNav_NearestNode g goal caps.canWallWalk := by
    rcases Node_FindNearest_cases g hwf goal
        (if caps.canWallWalk then 0 else NAV_GROUND) 0 with h | h
    · exact absurd h hng.2
    · exact h
  have hsn0 : 0 ≤ BotNav_NearestNode g selfOrigin caps.canWallWalk := by
    rcases Node_FindNearest_cases g hwf selfOrigin
        (if caps.canWallWalk then 0 else NAV_GROUND) 0 with h | h
    · exact absurd h hng.1
    · exact h
  by_cases heq : BotNav_NearestNode g selfOrigin caps.canWallWalk =
      BotNav_NearestNode g goal caps.canWallWalk
  · rw [if_pos heq] at ht
    dsimp only at ht
    omega
  rw [if_neg heq] at hvalid ht ⊢
  dsimp only at hvalid ht ⊢
  split at hvalid
  · simp at hvalid
  rename_i pbuf hrun
  rw [hrun] at ht
  dsimp only at ht ⊢
  have hinv0 : astarInv caps g
      { openSet := [⟨BotNav_NearestNode g selfOrigin caps.canWallWalk, 0,
          dist (g.nodes (BotNav_NearestNode g selfOrigin caps.canWallWalk).toNat).origin
               (g.nodes (BotNav_NearestNode g goal caps.canWallWalk).toNat).origin⟩]
        gCost := Function.update (fun _ => FLT_MAX_Q)
          (BotNav_NearestNode g selfOrigin caps.canWallWalk).toNat 0
        cameFrom := fun _ => BOT_INVALID_NODE
        closed := fun _ => false } := by
    constructor
    · intro n hn
      exact absurd rfl hn
    · intro e he
      simp only [List.mem_singleton] at he
      rw [he]
      exact hsn0
  obtain ⟨cf, htp, hpbuf⟩ := astarLoop_spec caps g dist _ _ _ fuel _ pbuf hinv0 hrun
  have htn : t + 1 < pbuf.reverse.length := by exact_mod_cast ht
  have htlen : t + 1 < pbuf.length := by simpa using htn
  have hwp1 : writePath nav.path pbuf.reverse t = pbuf.reverse.getD t BOT_INVALID_NODE := by
    unfold writePath
    rw [if_pos (by omega : t < pbuf.reverse.length)]
  have hwp2 : writePath nav.path pbuf.reverse (t + 1) =
      pbuf.reverse.getD (t + 1) BOT_INVALID_NODE := by
    unfold writePath
    rw [if_pos htn]
  have hrev1 : pbuf.reverse.getD t BOT_INVALID_NODE =
      pbuf.getD (pbuf.length - 1 - t) BOT_INVALID_NODE := getD_reverse (by omega)
  have hrev2 : pbuf.reverse.getD (t + 1) BOT_INVALID_NODE =
      pbuf.getD (pbuf.length - 1 - (t + 1)) BOT_INVALID_NODE := getD_reverse (by omega)
  have hchain : pbuf.getD (pbuf.length - 2 - t + 1) BOT_INVALID_NODE =
      cf ((pbuf.getD (pbuf.length - 2 - t) BOT_INVALID_NODE).toNat) := by
    rw [hpbuf]
    exact reconstruct_chain cf _ BOT_MAX_PATH_NODES _ _ (by rw [← hpbuf]; omega)
  have hidx1 : pbuf.length - 1 - t = pbuf.length - 2 - t + 1 := by omega
  have hidx2 : pbuf.length - 1 - (t + 1) = pbuf.length - 2 - t := by omega
  have hnonneg : ∀ x ∈ pbuf, 0 ≤ x := by
    rw [hpbuf]
    exact reconstruct_mem_nonneg cf (fun n hn => (htp n hn).1) _ _ _ hgn0
  have hq0 : 0 ≤ pbuf.getD (pbuf.length - 2 - t) BOT_INVALID_NODE :=
    hnonneg _ (getD_mem _ _ _ (by omega))
  have hp0 : 0 ≤ pbuf.getD (pbuf.length - 1 - t) BOT_INVALID_NODE :=
    hnonneg _ (getD_mem _ _ _ (by omega))
  refine ⟨(pbuf.getD (pbuf.length - 1 - t) BOT_INVALID_NODE).toNat,
          (pbuf.getD (pbuf.length - 2 - t) BOT_INVALID_NODE).toNat, ?_, ?_, ?_⟩
  · rw [hwp1, hrev1, Int.toNat_of_nonneg hp0]
  · rw [hwp2, hrev2, hidx2, Int.toNat_of_nonneg hq0]
  · have hcfq : cf ((pbuf.getD (pbuf.length - 2 - t) BOT_INVALID_NODE).toNat) =
        pbuf.getD (pbuf.length - 1 - t) BOT_INVALID_NODE := by
      rw [hidx1, hchain]
    have hcfne : cf ((pbuf.getD (pbuf.length - 2 - t) BOT_INVALID_NODE).toNat) ≠
        BOT_INVALID_NODE := by
      rw [hcfq]
      intro hcontra
      rw [hcontra] at hp0
      exact absurd hp0 (by norm_num [BOT_INVALID_NODE])
    obtain ⟨_, j, hj, htar, htrav⟩ := htp _ hcfne
    rw [hcfq] at hj htar htrav
    refine ⟨j, hj, ?_, htrav⟩
    rw [htar, Int.toNat_of_nonneg hq0]

/-- A blank navigation sub-state for concrete runs. -/
def navW : NavState :=
  { current_node := BOT_INVALID_NODE, goal_node := BOT_INVALID_NODE
    path := fun _ => BOT_INVALID_NODE, path_length := 0, path_index := 0
    goal_origin := ⟨0, 0, 0⟩, arrived_dist := 32, path_valid := false }

set_option maxRecDepth 4000 in
unseal Rat.add Rat.sub Rat.mul in
/-- Witness for C3: a concrete successful path search on `gC4` by a
walk-only agent. -/
theorem BotNav_FindPath_capability_filtered_witness :
    gC4.wf ∧
    (BotNav_FindPath ⟨false, false⟩ gC4 (fun _ _ => 0) 8 ⟨0, 0, 0⟩ ⟨10, 0, 0⟩
      navW).path_valid = true ∧
    (∀ t : Nat,
      (t : Int) + 1 < (BotNav_FindPath ⟨false, false⟩ gC4 (fun _ _ => 0) 8 ⟨0, 0, 0⟩
          ⟨10, 0, 0⟩ navW).path_length →
      ∃ p q : Nat,
        (BotNav_FindPath ⟨false, false⟩ gC4 (fun _ _ => 0) 8 ⟨0, 0, 0⟩ ⟨10, 0, 0⟩
          navW).path t = (p : Int) ∧
        (BotNav_FindPath ⟨false, false⟩ gC4 (fun _ _ => 0) 8 ⟨0, 0, 0⟩ ⟨10, 0, 0⟩
          navW).path (t + 1) = (q : Int) ∧
        ∃ j, j < (gC4.nodes p).num_neighbors.toNat ∧
          ((gC4.nodes p).nbrs.getD j sentinelNbr).target = (q : Int) ∧
          BotNav_CanTraverse ⟨false, false⟩
            ((gC4.nodes p).nbrs.getD j sentinelNbr).move = true) := by
  have hv : (BotNav_FindPath ⟨false, false⟩ gC4 (fun _ _ => 0) 8 ⟨0, 0, 0⟩ ⟨10, 0, 0⟩
      navW).path_valid = true := by decide
  exact ⟨gC4_wf, hv,
    BotNav_FindPath_capability_filtered ⟨false, false⟩ gC4 (fun _ _ => 0) 8
      ⟨0, 0, 0⟩ ⟨10, 0, 0⟩ navW gC4_wf hv⟩

/-! ## `BotNav_MoveTowardGoal` (`bot_nav.c:224`) and Claim C9

The function's array accesses are modelled as checked reads returning
`none` on an out-of-bounds index, so "the function never indexes the
path or node arrays out of bounds" becomes "the function never returns
`none`".  `VectorLength` is the parameter `vlen`; `VectorNormalize` +
`VectorScale(…, 300, …)` is `steerVelocity`. -/

/-- The movement-relevant agent state: navigation sub-state, entity
origin and entity velocity. -/
structure MoveState where
  nav      : NavState
  origin   : Vec3
  velocity : Vec3

/-- Checked read of `bs->nav.path[i]`: `some` only inside the valid
prefix `0 ≤ i < path_length` of the fixed-size path buffer. -/
def readPathSlot (nav : NavState) (i : Int) : Option Int :=
  if 0 ≤ i ∧ i < nav.path_length ∧ i.toNat < BOT_MAX_PATH_NODES then
    some (nav.path i.toNat)
  else none

/-- Checked read of `nav_nodes[id]`. -/
def readNodeSlot (g : NavGraph) (id : Int) : Option NavNode :=
  if 0 ≤ id ∧ id.toNat < MAX_NAV_NODES then some (g.nodes id.toNat) else none

/-- `VectorNormalize(dir); VectorScale(dir, 300.0f, velocity)`. -/
def steerVelocity (vlen : Vec3 → ℚ) (dir : Vec3) : Vec3 :=
  let l := vlen dir
  ⟨300 * (dir.x / l), 300 * (dir.y / l), 300 * (dir.z / l)⟩

/-- `BotNav_MoveTowardGoal` with checked array reads. -/
def BotNav_MoveTowardGoal (vlen : Vec3 → ℚ) (g : NavGraph) (ms : MoveState) :
    Option MoveState :=
  if ms.nav.path_valid ∧ ms.nav.path_length > 0 then
    if ms.nav.path_index ≥ ms.nav.path_length then
      some { ms with nav := { ms.nav with path_valid := false } }
    else
      match readPathSlot ms.nav ms.nav.path_index with
      | none => none
      | some next_node =>
        if next_node < 0 ∨ next_node ≥ g.count then
          some { ms with nav := { ms.nav with path_valid := false } }
        else
          match readNodeSlot g next_node with
          | none => none
          | some _ =>
            if (g.nodes next_node.toNat).id = BOT_INVALID_NODE then
              some { ms with nav := { ms.nav with path_valid := false } }
            else
              let dir := vsub (g.nodes next_node.toNat).origin ms.origin
              let d := vlen dir
              if d < ms.nav.arrived_dist then
                some { ms with nav := { ms.nav with
                  current_node := next_node
                  path_index := ms.nav.path_index + 1 } }
              else if d > 0 then
                some { ms with velocity := steerVelocity vlen dir }
              else some ms
  else
    let dir := vsub ms.nav.goal_origin ms.origin
    let d := vlen dir
    if d > ms.nav.arrived_dist ∧ d > 0 then
      some { ms with velocity := steerVelocity vlen dir }
    else some ms

/-- C9: under the state invariants the navigation code maintains
(`0 ≤ path_index`, `path_length ≤ BOT_MAX_PATH_NODES`,
`count ≤ MAX_NAV_NODES`), `BotNav_MoveTowardGoal` never reads the path
buffer or the node array out of bounds (it always returns `some`);
when the cursor is at or past `path_length`, or the next path node is
out of range or tombstoned, it only marks the path invalid; and with no
valid path it steers directly at the raw goal origin (when farther than
the arrival threshold). -/
theorem BotNav_MoveTowardGoal_safe (vlen : Vec3 → ℚ) (g : NavGraph) (ms : MoveState)
    (hidx : 0 ≤ ms.nav.path_index)
    (hlen : ms.nav.path_length ≤ (BOT_MAX_PATH_NODES : Int))
    (hcnt : g.count ≤ (MAX_NAV_NODES : Int)) :
    ∃ r, BotNav_MoveTowardGoal vlen g ms = some r ∧
      ((ms.nav.path_valid ∧ ms.nav.path_length > 0 ∧
          ms.nav.path_index ≥ ms.nav.path_length) →
        r = { ms with nav := { ms.nav with path_valid := false } }) ∧
      ((ms.nav.path_valid ∧ ms.nav.path_length > 0 ∧
          ms.nav.path_index < ms.nav.path_length ∧
          (ms.nav.path ms.nav.path_index.toNat < 0 ∨
           ms.nav.path ms.nav.path_index.toNat ≥ g.count ∨
           (g.nodes (ms.nav.path ms.nav.path_index.toNat).toNat).id = BOT_INVALID_NODE)) →
        r = { ms with nav := { ms.nav with path_valid := false } }) ∧
      (¬(ms.nav.path_valid ∧ ms.nav.path_length > 0) →
        (vlen (vsub ms.nav.goal_origin ms.origin) > ms.nav.arrived_dist ∧
            vlen (vsub ms.nav.goal_origin ms.origin) > 0 →
          r = { ms with velocity :=
            steerVelocity vlen (vsub ms.nav.goal_origin ms.origin) }) ∧
        (¬(vlen (vsub ms.nav.goal_origin ms.origin) > ms.nav.arrived_dist ∧
            vlen (vsub ms.nav.goal_origin ms.origin) > 0) →
          r = ms)) := by
  unfold BotNav_MoveTowardGoal
  by_cases hpv : ms.nav.path_valid ∧ ms.nav.path_length > 0
  · rw [if_pos hpv]
    by_cases hcur : ms.nav.path_index ≥ ms.nav.path_length
    · rw [if_pos hcur]
      refine ⟨_, rfl, fun _ => rfl, ?_, ?_⟩
      · intro hcontra
        omega
      · intro hcontra
        exact absurd hpv hcontra
    · rw [if_neg hcur]
      have hread : readPathSlot ms.nav ms.nav.path_index = some
          (ms.nav.path ms.nav.path_index.toNat) := by
        unfold readPathSlot
        rw [if_pos ⟨hidx, by omega, by
          have h1 : ms.nav.path_index < (BOT_MAX_PATH_NODES : Int) := by omega
          omega⟩]
      rw [hread]
      set next_node := ms.nav.path ms.nav.path_index.toNat with hnn
      dsimp only
      by_cases hrange : next_node < 0 ∨ next_node ≥ g.count
      · rw [if_pos hrange]
        refine ⟨_, rfl, fun h => by omega, fun _ => rfl, fun h => absurd hpv h⟩
      · rw [if_neg hrange]
        push_neg at hrange
        have hnode : readNodeSlot g next_node = some (g.nodes next_node.toNat) := by
          unfold readNodeSlot
          rw [if_pos ⟨hrange.1, by omega⟩]
        rw [hnode]
        by_cases htomb : (g.nodes next_node.toNat).id = BOT_INVALID_NODE
        · rw [if_pos htomb]
          refine ⟨_, rfl, fun h => by omega, fun _ => rfl, fun h => absurd hpv h⟩
        · rw [if_neg htomb]
          dsimp only
          have hbad : ¬(ms.nav.path_valid ∧ ms.nav.path_length > 0 ∧
              ms.nav.path_index < ms.nav.path_length ∧
              (next_node < 0 ∨ next_node ≥ g.count ∨
               (g.nodes next_node.toNat).id = BOT_INVALID_NODE)) := by
            intro h
            rcases h.2.2.2 with h1 | h1 | h1
            · omega
            · omega
            · exact htomb h1
          by_cases harr : vlen (vsub (g.nodes next_node.toNat).origin ms.origin) <
              ms.nav.arrived_dist
          · rw [if_pos harr]
            exact ⟨_, rfl, fun h => by omega, fun h => absurd h hbad,
              fun h => absurd hpv h⟩
          · rw [if_neg harr]
            by_cases hgt : vlen (vsub (g.nodes next_node.toNat).origin ms.origin) > 0
            · rw [if_pos hgt]
              exact ⟨_, rfl, fun h => by omega, fun h => absurd h hbad,
                fun h => absurd hpv h⟩
            · rw [if_neg hgt]
              exact ⟨_, rfl, fun h => by omega, fun h => absurd h hbad,
                fun h => absurd hpv h⟩
  · rw [if_neg hpv]
    dsimp only
    by_cases hgo : vlen (vsub ms.nav.goal_origin ms.origin) > ms.nav.arrived_dist ∧
        vlen (vsub ms.nav.goal_origin ms.origin) > 0
    · rw [if_pos hgo]
      exact ⟨_, rfl, fun h => absurd h.1 (fun hc => hpv ⟨hc, h.2.1⟩),
        fun h => absurd h.1 (fun hc => hpv ⟨hc, h.2.1⟩),
        fun _ => ⟨fun _ => rfl, fun hc => absurd hgo hc⟩⟩
    · rw [if_neg hgo]
      exact ⟨_, rfl, fun h => absurd h.1 (fun hc => hpv ⟨hc, h.2.1⟩),
        fun h => absurd h.1 (fun hc => hpv ⟨hc, h.2.1⟩),
        fun _ => ⟨fun hc => absurd hc hgo, fun _ => rfl⟩⟩

/-- A concrete moving agent with a two-node path on `gC4`. -/
def msW : MoveState :=
  { nav := { navW with
      path := fun i => if i = 0 then 0 else if i = 1 then 1 else BOT_INVALID_NODE
      path_length := 2, path_index := 0, path_valid := true }
    origin := ⟨0, 0, 0⟩
    velocity := ⟨0, 0, 0⟩ }

/-- Witness for C9 at the concrete state `msW` (with a constant length
functional standing for `VectorLength`). -/
theorem BotNav_MoveTowardGoal_safe_witness :
    (0 : Int) ≤ msW.nav.path_index ∧
    msW.nav.path_length ≤ (BOT_MAX_PATH_NODES : Int) ∧
    gC4.count ≤ (MAX_NAV_NODES : Int) ∧
    (∃ r, BotNav_MoveTowardGoal (fun _ => 5) gC4 msW = some r ∧
      ((msW.nav.path_valid ∧ msW.nav.path_length > 0 ∧
          msW.nav.path_index ≥ msW.nav.path_length) →
        r = { msW with nav := { msW.nav with path_valid := false } }) ∧
      ((msW.nav.path_valid ∧ msW.nav.path_length > 0 ∧
          msW.nav.path_index < msW.nav.path_length ∧
          (msW.nav.path msW.nav.path_index.toNat < 0 ∨
           msW.nav.path msW.nav.path_index.toNat ≥ gC4.count ∨
           (gC4.nodes (msW.nav.path msW.nav.path_index.toNat).toNat).id = BOT_INVALID_NODE)) →
        r = { msW with nav := { msW.nav with path_valid := false } }) ∧
      (¬(msW.nav.path_valid ∧ msW.nav.path_length > 0) →
        ((fun (_ : Vec3) => (5 : ℚ)) (vsub msW.nav.goal_origin msW.origin) >
            msW.nav.arrived_dist ∧
            (fun (_ : Vec3) => (5 : ℚ)) (vsub msW.nav.goal_origin msW.origin) > 0 →
          r = { msW with velocity :=
            steerVelocity (fun _ => 5) (vsub msW.nav.goal_origin msW.origin) }) ∧
        (¬((fun (_ : Vec3) => (5 : ℚ)) (vsub msW.nav.goal_origin msW.origin) >
            msW.nav.arrived_dist ∧
            (fun (_ : Vec3) => (5 : ℚ)) (vsub msW.nav.goal_origin msW.origin) > 0) →
          r = msW))) :=
  ⟨by decide, by decide, by decide,
   BotNav_MoveTowardGoal_safe (fun _ => 5) gC4 msW (by decide) (by decide) (by decide)⟩

/-! ## Personality (`bot_personality.c`)

`sqrt`, `log` and `cos` of the Box–Muller transform are bundled into the
function parameter `zf u1 u2` (standing for
`sqrt(-2 ln u1) * cos(2π u2)`); every verified property holds for an
arbitrary `zf`.  Bot names are byte lists (the C string up to the NUL
terminator); 32-bit unsigned wraparound is explicit `% 2^32`. -/

/-- `PERSONALITY_MEAN` (`0.5f`). -/
def PERSONALITY_MEAN : ℚ := 1/2

/-- `PERSONALITY_STDDEV` (`0.2f`). -/
def PERSONALITY_STDDEV : ℚ := 1/5

/-- `PERSONALITY_BASE_FLEE_HEALTH` (`0.2f`). -/
def PERSONALITY_BASE_FLEE_HEALTH : ℚ := 1/5

/-- The djb2-style loop of `name_hash`:
`h = ((h << 5) + h) ^ c` over 32-bit unsigned ints. -/
def nameHashLoop : List Nat → Nat → Nat
  | [], h => h
  | c :: rest, h => nameHashLoop rest (Nat.xor (((h <<< 5) + h) % 2 ^ 32) c)

/-- `name_hash` (`bot_personality.c:22`). -/
def name_hash (s : List Nat) : Nat := nameHashLoop s 5381

/-- `lcg_next` (`bot_personality.c:36`): updated state and a rational in
`[0, 1)` (`(state >> 8) / 2^24`). -/
def lcg_next (state : Nat) : Nat × ℚ :=
  let s := (state * 1664525 + 1013904223) % 2 ^ 32
  (s, ((s >>> 8 : Nat) : ℚ) / 2 ^ 24)

/-- The 10-draw loop of `Bot_GeneratePersonality`. -/
def lcg_draws : Nat → Nat → List ℚ
  | 0, _ => []
  | k + 1, st =>
    let p := lcg_next st
    p.2 :: lcg_draws k p.1

/-- `box_muller` (`bot_personality.c:46`): guard `u1` away from zero,
apply the (parameterized) transform, clamp to `[0, 1]`. -/
def box_muller (zf : ℚ → ℚ → ℚ) (mean stddev u1 u2 : ℚ) : ℚ :=
  let u1g := if u1 < 1/10000000 then 1/10000000 else u1
  let result := mean + stddev * zf u1g u2
  let r1 := if result < 0 then 0 else result
  if r1 > 1 then 1 else r1

/-- `bot_personality_t`. -/
structure Personality where
  aggression  : ℚ
  caution     : ℚ
  teamwork    : ℚ
  patience    : ℚ
  build_focus : ℚ
deriving DecidableEq, Repr

/-- The agent fields consulted by this module (`bot_state_t`, reduced):
the generator reads only `bs->name`. -/
structure BotState where
  name        : List Nat
  bot_index   : Int
  team        : Int
  gloom_class : Int
  skill       : ℚ
deriving DecidableEq, Repr

/-- `Bot_GeneratePersonality` (`bot_personality.c:66`): seed from the
name hash, draw 10 uniforms, clamp them away from zero, and produce the
five traits by Box–Muller pairs. -/
def Bot_GeneratePersonality (zf : ℚ → ℚ → ℚ) (bs : BotState) : Personality :=
  let seed := name_hash bs.name
  let u := (lcg_draws 10 seed).map (fun v => if v < 1/10000000 then 1/10000000 else v)
  { aggression  := box_muller zf PERSONALITY_MEAN PERSONALITY_STDDEV (u.getD 0 0) (u.getD 1 0)
    caution     := box_muller zf PERSONALITY_MEAN PERSONALITY_STDDEV (u.getD 2 0) (u.getD 3 0)
    teamwork    := box_muller zf PERSONALITY_MEAN PERSONALITY_STDDEV (u.getD 4 0) (u.getD 5 0)
    patience    := box_muller zf PERSONALITY_MEAN PERSONALITY_STDDEV (u.getD 6 0) (u.getD 7 0)
    build_focus := box_muller zf PERSONALITY_MEAN PERSONALITY_STDDEV (u.getD 8 0) (u.getD 9 0) }

/-- `Bot_FleeHealthThreshold` (`bot_personality.c:110`):
`base * (1 + caution - aggression)`, clamped to `[0.05, 0.60]`. -/
def Bot_FleeHealthThreshold (p : Personality) : ℚ :=
  let threshold := PERSONALITY_BASE_FLEE_HEALTH * (1 + p.caution - p.aggression)
  let t1 := if threshold < 1/20 then 1/20 else threshold
  if t1 > 3/5 then 3/5 else t1

/-! ## Claim C10: deterministic, name-only, clamped personality -/

lemma clamp01_mem (x : ℚ) :
    0 ≤ (if (if x < 0 then 0 else x) > 1 then 1 else (if x < 0 then 0 else x)) ∧
    (if (if x < 0 then 0 else x) > 1 then 1 else (if x < 0 then 0 else x)) ≤ 1 := by
  by_cases h : x < 0
  · simp only [if_pos h]
    norm_num
  · simp only [if_neg h]
    push_neg at h
    by_cases h2 : x > 1
    · rw [if_pos h2]
      norm_num
    · rw [if_neg h2]
      push_neg at h2
      exact ⟨h, h2⟩

lemma box_muller_mem (zf : ℚ → ℚ → ℚ) (mean stddev u1 u2 : ℚ) :
    0 ≤ box_muller zf mean stddev u1 u2 ∧ box_muller zf mean stddev u1 u2 ≤ 1 := by
  unfold box_muller
  dsimp only
  exact clamp01_mem _

/-- C10: `Bot_GeneratePersonality` depends only on the agent's name —
two states with equal names receive identical traits — and every trait
is clamped to `[0, 1]`. -/
theorem Bot_GeneratePersonality_name_determined (zf : ℚ → ℚ → ℚ)
    (bs1 bs2 : BotState) (hname : bs1.name = bs2.name) :
    Bot_GeneratePersonality zf bs1 = Bot_GeneratePersonality zf bs2 ∧
    (0 ≤ (Bot_GeneratePersonality zf bs1).aggression ∧
      (Bot_GeneratePersonality zf bs1).aggression ≤ 1) ∧
    (0 ≤ (Bot_GeneratePersonality zf bs1).caution ∧
      (Bot_GeneratePersonality zf bs1).caution ≤ 1) ∧
    (0 ≤ (Bot_GeneratePersonality zf bs1).teamwork ∧
      (Bot_GeneratePersonality zf bs1).teamwork ≤ 1) ∧
    (0 ≤ (Bot_GeneratePersonality zf bs1).patience ∧
      (Bot_GeneratePersonality zf bs1).patience ≤ 1) ∧
    (0 ≤ (Bot_GeneratePersonality zf bs1).build_focus ∧
      (Bot_GeneratePersonality zf bs1).build_focus ≤ 1) := by
  refine ⟨?_, ?_, ?_, ?_, ?_, ?_⟩
  · unfold Bot_GeneratePersonality
    rw [hname]
  all_goals
    exact box_muller_mem zf PERSONALITY_MEAN PERSONALITY_STDDEV _ _

/-- Witness for C10: two distinct concrete agent states sharing the
name `"A"`. -/
theorem Bot_GeneratePersonality_name_determined_witness :
    (⟨[65], 0, 0, 0, 0⟩ : BotState).name = (⟨[65], 1, 1, 2, 1⟩ : BotState).name ∧
    (Bot_GeneratePersonality (fun _ _ => 0) ⟨[65], 0, 0, 0, 0⟩ =
      Bot_GeneratePersonality (fun _ _ => 0) ⟨[65], 1, 1, 2, 1⟩ ∧
     (0 ≤ (Bot_GeneratePersonality (fun _ _ => 0) (⟨[65], 0, 0, 0, 0⟩ : BotState)).aggression ∧
       (Bot_GeneratePersonality (fun _ _ => 0) (⟨[65], 0, 0, 0, 0⟩ : BotState)).aggression ≤ 1) ∧
     (0 ≤ (Bot_GeneratePersonality (fun _ _ => 0) (⟨[65], 0, 0, 0, 0⟩ : BotState)).caution ∧
       (Bot_GeneratePersonality (fun _ _ => 0) (⟨[65], 0, 0, 0, 0⟩ : BotState)).caution ≤ 1) ∧
     (0 ≤ (Bot_GeneratePersonality (fun _ _ => 0) (⟨[65], 0, 0, 0, 0⟩ : BotState)).teamwork ∧
       (Bot_GeneratePersonality (fun _ _ => 0) (⟨[65], 0, 0, 0, 0⟩ : BotState)).teamwork ≤ 1) ∧
     (0 ≤ (Bot_GeneratePersonality (fun _ _ => 0) (⟨[65], 0, 0, 0, 0⟩ : BotState)).patience ∧
       (Bot_GeneratePersonality (fun _ _ => 0) (⟨[65], 0, 0, 0, 0⟩ : BotState)).patience ≤ 1) ∧
     (0 ≤ (Bot_GeneratePersonality (fun _ _ => 0) (⟨[65], 0, 0, 0, 0⟩ : BotState)).build_focus ∧
       (Bot_GeneratePersonality (fun _ _ => 0) (⟨[65], 0, 0, 0, 0⟩ : BotState)).build_focus ≤ 1)) :=
  ⟨rfl, Bot_GeneratePersonality_name_determined (fun _ _ => 0) _ _ rfl⟩

/-! ## Agent finite state machine (`bot_main.c`) and teamwork (`bot_teamwork.c`)

The per-agent FSM state is the triple `(ai_state, prev_ai_state,
state_enter_time)` of `bot_state_t`.  Queries answered by other
subsystems (`Gloom_ClassCanBuild`, `Bot_UpdateBuildPriority`'s resulting
`build.priority`, evolution/upgrade resource checks, visibility) enter
as an input record capturing their per-think values; they are what the
control flow of `bot_main.c` branches on.  Distance computations
(`sqrt`) are again the function parameter `vlen`. -/

inductive BotAiState where
  | idle | patrol | hunt | combat | flee | defend | escort | build | evolve | upgrade
deriving DecidableEq, Repr

/-- `build_priority_t` values (`gloom_structs.h`). -/
def BUILD_PRIORITY_CRITICAL : Int := 0
/-- `BUILD_PRIORITY_SPAWNS` -/
def BUILD_PRIORITY_SPAWNS : Int := 1
/-- `BUILD_PRIORITY_NONE` -/
def BUILD_PRIORITY_NONE : Int := 6

/-- `BOT_ENEMY_MEMORY_TIME` (seconds). -/
def BOT_ENEMY_MEMORY_TIME : ℚ := 10

/-- The FSM fields of `bot_state_t`. -/
structure BotFsm where
  ai_state         : BotAiState
  prev_ai_state    : BotAiState
  state_enter_time : ℚ
deriving DecidableEq, Repr

/-- `Bot_SetState` (`bot_main.c:526`): same-state transitions are
rejected as no-ops; otherwise previous state, new state and enter time
are updated together. -/
def Bot_SetState (time : ℚ) (fsm : BotFsm) (new_state : BotAiState) : BotFsm :=
  if fsm.ai_state = new_state then fsm
  else
    { ai_state := new_state, prev_ai_state := fsm.ai_state, state_enter_time := time }

/-- Per-think inputs of the idle/patrol/build handlers, as produced by
the combat, class and build subsystems. -/
structure ThinkInputs where
  target_visible   : Bool  -- `bs->combat.target_visible`
  target_present   : Bool  -- `bs->combat.target != NULL && ...->inuse`
  target_last_seen : ℚ     -- `bs->combat.target_last_seen`
  can_build        : Bool  -- `Gloom_ClassCanBuild(bs->gloom_class)`
  build_priority   : Int   -- `bs->build.priority` after `Bot_UpdateBuildPriority`
  team_alien       : Bool  -- `bs->team == TEAM_ALIEN`
  evolve_ready     : Bool  -- `next != GLOOM_CLASS_MAX && evos >= cost`
  upgrade_ready    : Bool  -- `credits >= cost && class_upgrades == 0`
deriving DecidableEq, Repr

/-- `Bot_StateIdle` (`bot_main.c:592`). -/
def Bot_StateIdle (inp : ThinkInputs) (time : ℚ) (fsm : BotFsm) : BotFsm :=
  if inp.target_visible then Bot_SetState time fsm .combat
  else if inp.target_present then Bot_SetState time fsm .hunt
  else if inp.can_build ∧ inp.build_priority < BUILD_PRIORITY_NONE then
    Bot_SetState time fsm .build
  else if inp.team_alien ∧ ¬inp.can_build ∧ inp.evolve_ready then
    Bot_SetState time fsm .evolve
  else if ¬inp.team_alien ∧ ¬inp.can_build ∧ inp.upgrade_ready then
    Bot_SetState time fsm .upgrade
  else if time - fsm.state_enter_time > 2 then Bot_SetState time fsm .patrol
  else fsm

/-- `Bot_StatePatrol` (`bot_main.c:638`). -/
def Bot_StatePatrol (inp : ThinkInputs) (time : ℚ) (fsm : BotFsm) : BotFsm :=
  if inp.target_visible then Bot_SetState time fsm .combat
  else if inp.target_present then Bot_SetState time fsm .hunt
  else fsm

/-- `Bot_StateDefend` (`bot_main.c:712`). -/
def Bot_StateDefend (inp : ThinkInputs) (time : ℚ) (fsm : BotFsm) : BotFsm :=
  if inp.target_visible then Bot_SetState time fsm .combat else fsm

/-- `Bot_StateEscort` (`bot_main.c:718`). -/
def Bot_StateEscort (inp : ThinkInputs) (time : ℚ) (fsm : BotFsm) : BotFsm :=
  if inp.target_visible then Bot_SetState time fsm .combat else fsm

/-- `Bot_StateBuild` (`bot_main.c:736`), FSM effect (the
`build.building` flag belongs to the abstracted build subsystem). -/
def Bot_StateBuild (inp : ThinkInputs) (time : ℚ) (fsm : BotFsm) : BotFsm :=
  if inp.target_visible ∧ inp.build_priority ≠ BUILD_PRIORITY_CRITICAL then
    Bot_SetState time fsm .combat
  else if inp.build_priority = BUILD_PRIORITY_NONE then Bot_SetState time fsm .idle
  else fsm

/-- `Bot_StateCombat` (`bot_main.c:673`): the flee comparison
`health <= (int)(max_health * Bot_FleeHealthThreshold(bs))` — the C
`(int)` cast truncates, which on the non-negative products occurring
here equals the floor. -/
def Bot_StateCombat (inp : ThinkInputs) (health max_health : Int) (p : Personality)
    (time : ℚ) (fsm : BotFsm) : BotFsm :=
  if ¬inp.target_present then Bot_SetState time fsm .idle
  else if ¬inp.target_visible then Bot_SetState time fsm .hunt
  else if health ≤ Rat.floor ((max_health : ℚ) * Bot_FleeHealthThreshold p) then
    Bot_SetState time fsm .flee
  else fsm

/-- The `0.5f` recovery fraction of `Bot_StateFlee` (`bot_main.c:702`). -/
def fleeRecoverFraction : ℚ := 1/2

/-- `Bot_StateFlee` (`bot_main.c:702`). -/
def Bot_StateFlee (health max_health : Int) (time : ℚ) (fsm : BotFsm) : BotFsm :=
  if health ≥ Rat.floor ((max_health : ℚ) * fleeRecoverFraction) then
    Bot_SetState time fsm .idle
  else fsm

/-- `bot_role_t` (`bot_strategy.h`). -/
inductive BotRole where
  | builder | attacker | defender | scout | escort | healer
deriving DecidableEq, Repr

/-- `Bot_RunClassBehavior` (`bot_main.c:428`) for an agent whose current
state is IDLE: the builder override, the role nudge, then the dispatch
on the (possibly nudged) state.  From an IDLE entry the dispatched state
is one of IDLE/PATROL/DEFEND/ESCORT/BUILD, so only those handlers are
reachable; the remaining dispatch arms leave the state unchanged. -/
def Bot_RunClassBehavior_idle (inp : ThinkInputs) (role : BotRole) (time : ℚ)
    (fsm : BotFsm) : BotFsm :=
  let fsm1 :=
    if inp.can_build ∧ inp.build_priority ≤ BUILD_PRIORITY_SPAWNS ∧
        fsm.ai_state ≠ .combat then
      Bot_SetState time fsm .build
    else fsm
  let fsm2 :=
    if fsm1.ai_state = .idle then
      match role with
      | .attacker => Bot_SetState time fsm1 .patrol
      | .defender => Bot_SetState time fsm1 .defend
      | .escort   => Bot_SetState time fsm1 .escort
      | _ => fsm1
    else fsm1
  match fsm2.ai_state with
  | .idle   => Bot_StateIdle inp time fsm2
  | .patrol => Bot_StatePatrol inp time fsm2
  | .defend => Bot_StateDefend inp time fsm2
  | .escort => Bot_StateEscort inp time fsm2
  | .build  => Bot_StateBuild inp time fsm2
  | _ => fsm2

/-- One remembered-enemy entry (`bot_enemy_memory_t`); the entity
reference is a weak handle, modelled as an id. -/
structure EnemyMemEntry where
  ent       : Int
  last_pos  : Vec3
  last_seen : ℚ
deriving DecidableEq, Repr

/-- The update-existing scan of `BotTeamwork_ShareEnemyPos`: `some` when
an entry for this enemy existed and was refreshed (the C `already`
flag). -/
def updateExistingEnemy : List EnemyMemEntry → Int → Vec3 → ℚ →
    Option (List EnemyMemEntry)
  | [], _, _, _ => none
  | e :: rest, enemy, pos, time =>
    if e.ent = enemy then some (⟨enemy, pos, time⟩ :: rest)
    else
      match updateExistingEnemy rest enemy pos time with
      | none => none
      | some rest' => some (e :: rest')

/-- The per-ally memory insertion of `BotTeamwork_ShareEnemyPos`
(`bot_teamwork.c:66`): everything is guarded by
`if (ally->enemy_memory_count < BOT_MAX_REMEMBERED_ENEMIES)` — at
capacity neither an update nor an insertion happens. -/
def shareEnemyIntoMemory (mem : List EnemyMemEntry) (enemy : Int) (pos : Vec3)
    (time : ℚ) : List EnemyMemEntry :=
  if mem.length < BOT_MAX_REMEMBERED_ENEMIES then
    match updateExistingEnemy mem enemy pos time with
    | some mem' => mem'
    | none => mem ++ [⟨enemy, pos, time⟩]
  else mem

/-- One teammate slot as seen by the teamwork pass. -/
structure AllyState where
  in_use       : Bool
  team         : Int
  ent_ok       : Bool  -- `ally->ent && ally->ent->inuse`
  pos          : Vec3
  fsm          : BotFsm
  goal_origin  : Vec3
  enemy_memory : List EnemyMemEntry
deriving DecidableEq, Repr

/-- The per-ally body of `BotTeamwork_ShareEnemyPos` (`bot_teamwork.c:41`). -/
def BotTeamwork_ShareEnemyPos_ally (vlen : Vec3 → ℚ) (reporterPos : Vec3)
    (reporterTeam : Int) (enemy : Int) (enemy_pos : Vec3) (time : ℚ)
    (ally : AllyState) : AllyState :=
  if ¬ally.in_use then ally
  else if ally.team ≠ reporterTeam then ally
  else if ¬ally.ent_ok then ally
  else if vlen (vsub ally.pos reporterPos) > 800 then ally
  else { ally with enemy_memory := shareEnemyIntoMemory ally.enemy_memory enemy enemy_pos time }

/-- The per-ally body of `BotTeamwork_RequestHelp` (`bot_teamwork.c:99`):
note the direct write `ally->ai_state = BOTSTATE_ESCORT` that bypasses
`Bot_SetState`. -/
def BotTeamwork_RequestHelp_ally (vlen : Vec3 → ℚ) (callerPos : Vec3)
    (callerTeam : Int) (ally : AllyState) : AllyState :=
  if ¬ally.in_use then ally
  else if ally.team ≠ callerTeam then ally
  else if ¬ally.ent_ok then ally
  else if ally.fsm.ai_state = .combat then ally
  else if vlen (vsub ally.pos callerPos) > 600 then ally
  else { ally with goal_origin := callerPos
                   fsm := { ally.fsm with ai_state := .escort } }

/-! ## Claim C5: enemy-memory capacity and insertion at capacity -/

lemma updateExistingEnemy_length :
    ∀ (mem mem' : List EnemyMemEntry) (enemy : Int) (pos : Vec3) (time : ℚ),
    updateExistingEnemy mem enemy pos time = some mem' → mem'.length = mem.length := by
  intro mem
  induction mem with
  | nil => intro mem' enemy pos time h; exact absurd h (by simp [updateExistingEnemy])
  | cons e rest ih =>
    intro mem' enemy pos time h
    rw [updateExistingEnemy] at h
    by_cases he : e.ent = enemy
    · rw [if_pos he] at h
      cases h
      rfl
    · rw [if_neg he] at h
      rcases hrec : updateExistingEnemy rest enemy pos time with _ | rest'
      · rw [hrec] at h; cases h
      · rw [hrec] at h
        cases h
        simp only [List.length_cons, ih rest' enemy pos time hrec]

/-- C5 (amended): the remembered-enemy memory never exceeds
`BOT_MAX_REMEMBERED_ENEMIES`, and an insertion arriving while the memory
is already at capacity is dropped entirely (no eviction, no update) —
the memory is left unchanged. -/
theorem shareEnemyIntoMemory_capacity (mem : List EnemyMemEntry) (enemy : Int)
    (pos : Vec3) (time : ℚ) (hlen : mem.length ≤ BOT_MAX_REMEMBERED_ENEMIES) :
    (shareEnemyIntoMemory mem enemy pos time).length ≤ BOT_MAX_REMEMBERED_ENEMIES ∧
    (mem.length = BOT_MAX_REMEMBERED_ENEMIES →
      shareEnemyIntoMemory mem enemy pos time = mem) := by
  unfold shareEnemyIntoMemory
  by_cases h : mem.length < BOT_MAX_REMEMBERED_ENEMIES
  · rw [if_pos h]
    constructor
    · rcases hrec : updateExistingEnemy mem enemy pos time with _ | mem'
      · simp only [List.length_append, List.length_singleton]
        omega
      · rw [updateExistingEnemy_length mem mem' enemy pos time hrec]
        exact hlen
    · intro hfull
      omega
  · rw [if_neg h]
    exact ⟨hlen, fun _ => rfl⟩

/-- Witness for the amended C5 at a concrete one-entry memory. -/
theorem shareEnemyIntoMemory_capacity_witness :
    ([⟨1, ⟨0, 0, 0⟩, 0⟩] : List EnemyMemEntry).length ≤ BOT_MAX_REMEMBERED_ENEMIES ∧
    ((shareEnemyIntoMemory [⟨1, ⟨0, 0, 0⟩, 0⟩] 2 ⟨0, 0, 0⟩ 3).length ≤
        BOT_MAX_REMEMBERED_ENEMIES ∧
      (([⟨1, ⟨0, 0, 0⟩, 0⟩] : List EnemyMemEntry).length = BOT_MAX_REMEMBERED_ENEMIES →
        shareEnemyIntoMemory [⟨1, ⟨0, 0, 0⟩, 0⟩] 2 ⟨0, 0, 0⟩ 3 = [⟨1, ⟨0, 0, 0⟩, 0⟩])) :=
  ⟨by decide, shareEnemyIntoMemory_capacity [⟨1, ⟨0, 0, 0⟩, 0⟩] 2 ⟨0, 0, 0⟩ 3 (by decide)⟩

/-- A memory at full capacity (eight distinct remembered enemies,
entry 0 the oldest). -/
def mem8 : List EnemyMemEntry :=
  [⟨1, ⟨0, 0, 0⟩, 0⟩, ⟨2, ⟨0, 0, 0⟩, 0⟩, ⟨3, ⟨0, 0, 0⟩, 0⟩, ⟨4, ⟨0, 0, 0⟩, 0⟩,
   ⟨5, ⟨0, 0, 0⟩, 0⟩, ⟨6, ⟨0, 0, 0⟩, 0⟩, ⟨7, ⟨0, 0, 0⟩, 0⟩, ⟨8, ⟨0, 0, 0⟩, 0⟩]

/-- Counterexample to C5 as stated: inserting a new enemy (id 99) into a
memory at capacity leaves the memory unchanged — the new enemy is NOT
remembered and the oldest entry is NOT evicted; the insertion is
dropped, not resolved by eviction. -/
theorem shareEnemyIntoMemory_drop_counterexample :
    mem8.length = BOT_MAX_REMEMBERED_ENEMIES ∧
    shareEnemyIntoMemory mem8 99 ⟨0, 0, 0⟩ 7 = mem8 ∧
    (∀ e ∈ shareEnemyIntoMemory mem8 99 ⟨0, 0, 0⟩ 7, e.ent ≠ 99) ∧
    (shareEnemyIntoMemory mem8 99 ⟨0, 0, 0⟩ 7).getD 0 ⟨0, ⟨0, 0, 0⟩, 0⟩ =
      ⟨1, ⟨0, 0, 0⟩, 0⟩ := by decide

/-! ## Claim C6: transition atomicity -/

/-- C6 (amended): transitions made through `Bot_SetState` reject
same-state requests as no-ops and atomically update the state,
previous-state and enter-time together (so immediately afterwards the
previous state differs from the current one); but state writes that
bypass `Bot_SetState` (see the counterexample on
`BotTeamwork_RequestHelp`) update none of the bookkeeping. -/
theorem Bot_SetState_atomic (time : ℚ) (fsm : BotFsm) (s : BotAiState) :
    (s = fsm.ai_state → Bot_SetState time fsm s = fsm) ∧
    (s ≠ fsm.ai_state →
      (Bot_SetState time fsm s).ai_state = s ∧
      (Bot_SetState time fsm s).prev_ai_state = fsm.ai_state ∧
      (Bot_SetState time fsm s).state_enter_time = time ∧
      (Bot_SetState time fsm s).prev_ai_state ≠ (Bot_SetState time fsm s).ai_state) := by
  unfold Bot_SetState
  constructor
  · intro h
    rw [if_pos h.symm]
  · intro h
    rw [if_neg (fun hc => h hc.symm)]
    exact ⟨rfl, rfl, rfl, fun hc => h hc.symm⟩

/-- Witness for the amended C6 at a concrete transition IDLE → COMBAT. -/
theorem Bot_SetState_atomic_witness :
    (BotAiState.combat ≠ (⟨.idle, .patrol, 1⟩ : BotFsm).ai_state) ∧
    ((Bot_SetState 2 ⟨.idle, .patrol, 1⟩ .combat).ai_state = .combat ∧
     (Bot_SetState 2 ⟨.idle, .patrol, 1⟩ .combat).prev_ai_state =
       (⟨.idle, .patrol, 1⟩ : BotFsm).ai_state ∧
     (Bot_SetState 2 ⟨.idle, .patrol, 1⟩ .combat).state_enter_time = 2 ∧
     (Bot_SetState 2 ⟨.idle, .patrol, 1⟩ .combat).prev_ai_state ≠
       (Bot_SetState 2 ⟨.idle, .patrol, 1⟩ .combat).ai_state) :=
  ⟨by decide, (Bot_SetState_atomic 2 ⟨.idle, .patrol, 1⟩ .combat).2 (by decide)⟩

/-- A concrete eligible ally whose previous state is ESCORT while it
currently idles. -/
def allyCex : AllyState :=
  { in_use := true, team := 0, ent_ok := true, pos := ⟨0, 0, 0⟩
    fsm := ⟨.idle, .escort, 5⟩, goal_origin := ⟨0, 0, 0⟩, enemy_memory := [] }

/-- Counterexample to C6 as stated: `BotTeamwork_RequestHelp` changes
the ally's active state (IDLE → ESCORT) by writing `ai_state` directly:
previous-state and enter-time are not updated with it, and immediately
after this transition the previous state EQUALS the current state. -/
theorem BotTeamwork_RequestHelp_nonatomic_counterexample :
    (BotTeamwork_RequestHelp_ally (fun _ => 0) ⟨0, 0, 0⟩ 0 allyCex).fsm.ai_state ≠
      allyCex.fsm.ai_state ∧
    (BotTeamwork_RequestHelp_ally (fun _ => 0) ⟨0, 0, 0⟩ 0 allyCex).fsm.prev_ai_state =
      (BotTeamwork_RequestHelp_ally (fun _ => 0) ⟨0, 0, 0⟩ 0 allyCex).fsm.ai_state ∧
    (BotTeamwork_RequestHelp_ally (fun _ => 0) ⟨0, 0, 0⟩ 0 allyCex).fsm.state_enter_time =
      allyCex.fsm.state_enter_time := by decide

/-! ## Claim C7: flee recovery threshold strictly above the flee trigger -/

/-- C7: for every personality with aggression and caution in `[0, 1]`,
the personality-modulated flee-trigger fraction (`Bot_StateCombat` via
`Bot_FleeHealthThreshold`) is strictly below the fixed `0.5` recovery
fraction at which `Bot_StateFlee` returns to IDLE. -/
theorem Bot_FleeHealthThreshold_below_recovery (p : Personality)
    (ha0 : 0 ≤ p.aggression) (ha1 : p.aggression ≤ 1)
    (hc0 : 0 ≤ p.caution) (hc1 : p.caution ≤ 1) :
    Bot_FleeHealthThreshold p < fleeRecoverFraction := by
  unfold Bot_FleeHealthThreshold fleeRecoverFraction PERSONALITY_BASE_FLEE_HEALTH
  dsimp only
  have hupper : (1 : ℚ)/5 * (1 + p.caution - p.aggression) ≤ 2/5 := by linarith
  by_cases h1 : (1 : ℚ)/5 * (1 + p.caution - p.aggression) < 1/20
  · rw [if_pos h1, if_neg (by norm_num)]
    norm_num
  · rw [if_neg h1, if_neg (by linarith)]
    linarith

/-- Witness for C7 at a maximally cautious, minimally aggressive
personality. -/
theorem Bot_FleeHealthThreshold_below_recovery_witness :
    (0 : ℚ) ≤ (⟨0, 1, 0, 0, 0⟩ : Personality).aggression ∧
    (⟨0, 1, 0, 0, 0⟩ : Personality).aggression ≤ 1 ∧
    (0 : ℚ) ≤ (⟨0, 1, 0, 0, 0⟩ : Personality).caution ∧
    (⟨0, 1, 0, 0, 0⟩ : Personality).caution ≤ 1 ∧
    Bot_FleeHealthThreshold ⟨0, 1, 0, 0, 0⟩ < fleeRecoverFraction :=
  ⟨by norm_num, by norm_num, by norm_num, by norm_num,
   Bot_FleeHealthThreshold_below_recovery ⟨0, 1, 0, 0, 0⟩
     (by norm_num) (by norm_num) (by norm_num) (by norm_num)⟩

/-! ## Claim C8: idle dwell-time transition to PATROL -/

/-- C8 (amended): an idle agent with no visible or remembered target, no
construction capability in play, no evolve/upgrade resources, AND no
attacker/defender/escort role nudge from the strategy layer, transitions
IDLE → PATROL on the first think strictly after 2 simulated seconds in
IDLE, and stays in IDLE on every think at or before the 2-second mark.
(An attacker/defender/escort role assignment preempts the dwell timer —
see the counterexample.) -/
theorem Bot_RunClassBehavior_idle_dwell (inp : ThinkInputs) (role : BotRole)
    (time : ℚ) (fsm : BotFsm)
    (hidle : fsm.ai_state = .idle)
    (hvis : inp.target_visible = false)
    (htgt : inp.target_present = false)
    (hbuild : inp.can_build = false)
    (hev : inp.evolve_ready = false)
    (hup : inp.upgrade_ready = false)
    (hrole : role = .scout ∨ role = .builder ∨ role = .healer) :
    (time - fsm.state_enter_time > 2 →
      Bot_RunClassBehavior_idle inp role time fsm =
        { ai_state := .patrol, prev_ai_state := .idle, state_enter_time := time }) ∧
    (time - fsm.state_enter_time ≤ 2 →
      Bot_RunClassBehavior_idle inp role time fsm = fsm) := by
  have hstep : Bot_RunClassBehavior_idle inp role time fsm = Bot_StateIdle inp time fsm := by
    unfold Bot_RunClassBehavior_idle
    rw [if_neg (by simp [hbuild])]
    rcases hrole with h | h | h <;> subst h <;>
      simp only [hidle, if_pos]
  rw [hstep]
  unfold Bot_StateIdle
  rw [if_neg (by simp [hvis]), if_neg (by simp [htgt]),
      if_neg (by simp [hbuild]), if_neg (by simp [hbuild, hev]),
      if_neg (by simp [hup]), ]
  constructor
  · intro hd
    rw [if_pos hd]
    unfold Bot_SetState
    rw [if_neg (by rw [hidle]; intro hc; cases hc)]
    rw [hidle]
  · intro hd
    rw [if_neg (by linarith)]

/-- Per-think inputs for a quiescent agent: nothing visible or
remembered, no build capability, no resources, nothing to build. -/
def inpQuiet : ThinkInputs :=
  { target_visible := false, target_present := false, target_last_seen := 0
    can_build := false, build_priority := BUILD_PRIORITY_NONE
    team_alien := false, evolve_ready := false, upgrade_ready := false }

/-- Witness for the amended C8: a scout-role agent idling since time 0,
thinking at time 3. -/
theorem Bot_RunClassBehavior_idle_dwell_witness :
    ((⟨.idle, .idle, 0⟩ : BotFsm).ai_state = .idle) ∧
    ((3 - (⟨.idle, .idle, 0⟩ : BotFsm).state_enter_time > 2 →
      Bot_RunClassBehavior_idle inpQuiet .scout 3 ⟨.idle, .idle, 0⟩ =
        { ai_state := .patrol, prev_ai_state := .idle, state_enter_time := 3 }) ∧
     (3 - (⟨.idle, .idle, 0⟩ : BotFsm).state_enter_time ≤ 2 →
      Bot_RunClassBehavior_idle inpQuiet .scout 3 ⟨.idle, .idle, 0⟩ = ⟨.idle, .idle, 0⟩)) :=
  ⟨rfl, Bot_RunClassBehavior_idle_dwell inpQuiet .scout 3 ⟨.idle, .idle, 0⟩
    rfl rfl rfl rfl rfl rfl (Or.inl rfl)⟩

unseal Rat.sub in
/-- Counterexample to C8 as stated: the same quiescent idle agent, when
the strategy layer assigns it the ATTACKER role, transitions IDLE →
PATROL on a think only 1 second after entering IDLE — before the
2-second dwell time has elapsed. -/
theorem Bot_RunClassBehavior_idle_dwell_counterexample :
    (Bot_RunClassBehavior_idle inpQuiet .attacker 1 ⟨.idle, .idle, 0⟩).ai_state = .patrol ∧
    (1 : ℚ) - (⟨.idle, .idle, 0⟩ : BotFsm).state_enter_time < 2 ∧
    (⟨.idle, .idle, 0⟩ : BotFsm).ai_state = .idle := by decide
